import Mathlib

/-!
Verification development for the msa multi-step agent repository.

The Python sources are shallowly embedded: pure fragments become Lean
functions, stateful methods become explicit state-passing functions, and
every call to a wall clock (datetime.now(), time.time()) becomes an explicit
rational `now` argument.  Python floats are modelled as rationals, Python
dicts (which preserve insertion order) as association lists with
update-in-place / append semantics, and Python exceptions with the
`PyResult` sum type below.
-/

namespace Msa

/-- Outcome of a Python call: a normal return value or a raised exception,
carrying the exception text. -/
inductive PyResult (α : Type) where
  | ok (a : α) : PyResult α
  | exc (e : String) : PyResult α
deriving DecidableEq, Repr

/-- True when the call returned normally. -/
def PyResult.isOk {α : Type} : PyResult α → Bool
  | .ok _ => true
  | .exc _ => false

/-- Lookup in a Python dict modelled as an association list
(first matching key; keys are unique by construction). -/
def dget {α : Type} (d : List (String × α)) (k : String) : Option α :=
  match d with
  | [] => none
  | (k0, v0) :: t => if k0 = k then some v0 else dget t k

/-- Python dict assignment d[k] = v: update in place if the key exists
(keeping its position, as CPython dicts do), else append. -/
def dset {α : Type} (d : List (String × α)) (k : String) (v : α) :
    List (String × α) :=
  match d with
  | [] => [(k, v)]
  | (k0, v0) :: t => if k0 = k then (k0, v) :: t else (k0, v0) :: dset t k v

/-- Python del d[k]: remove the entry with key k (keys are unique). -/
def ddel {α : Type} (d : List (String × α)) (k : String) :
    List (String × α) :=
  match d with
  | [] => []
  | (k0, v0) :: t => if k0 = k then t else (k0, v0) :: ddel t k

/-- Whether the character list n occurs at the start of h. -/
def leadsWith : List Char → List Char → Bool
  | [], _ => true
  | _ :: _, [] => false
  | c :: n, c0 :: h => c = c0 && leadsWith n h

/-- Whether the character list n occurs anywhere inside h. -/
def occursIn (n : List Char) : List Char → Bool
  | [] => n.isEmpty
  | c0 :: h => leadsWith n (c0 :: h) || occursIn n h

/-- Python substring test: needle in hay. -/
def strIn (needle hay : String) : Bool :=
  occursIn needle.toList hay.toList

/-- Python str.lower for the ASCII range (the repository only compares
ASCII keyword tables). -/
def pyLower (s : String) : String :=
  String.mk (s.toList.map Char.toLower)

/-! Rational arithmetic for the embedding.  The library operations
Rat.add/mul/inv are irreducible towards the kernel, so the embedding
computes through mkRat/divInt directly; bridging lemmas below identify
these with the ordinary field operations. -/

/-- Addition of two rationals through mkRat. -/
def rAdd (a b : Rat) : Rat :=
  mkRat (a.num * b.den + b.num * a.den) (a.den * b.den)

/-- Subtraction of two rationals through mkRat. -/
def rSub (a b : Rat) : Rat :=
  mkRat (a.num * b.den - b.num * a.den) (a.den * b.den)

/-- Multiplication of two rationals through mkRat. -/
def rMul (a b : Rat) : Rat :=
  mkRat (a.num * b.num) (a.den * b.den)

/-- Division of two rationals through divInt (zero on a zero divisor;
call sites guard the Python ZeroDivisionError separately). -/
def rDiv (a b : Rat) : Rat :=
  Rat.divInt (a.num * b.den) (a.den * b.num)

/-- Python max(a, b) for two rationals. -/
def pyMax (a b : Rat) : Rat := if a < b then b else a

/-- Python min(a, b) for two rationals. -/
def pyMin (a b : Rat) : Rat := if b < a then b else a

/-- Python abs for a rational. -/
def pyAbs (a : Rat) : Rat := if a < 0 then -a else a

end Msa

namespace Msa.CircuitTool

/-! Embedding of src/msa/tools/circuit_breaker.py.  time.time() becomes an
explicit `now : Rat` argument; the wrapped call becomes a `PyResult`
supplied by the caller (the behaviour of the protected function). -/

/-- States of the breaker (class CircuitState). -/
inductive CircuitState where
  | CLOSED : CircuitState
  | OPEN : CircuitState
  | HALF_OPEN : CircuitState
deriving DecidableEq, Repr

/-- Configuration (class CircuitBreakerConfig): failure_threshold = 5,
timeout_seconds = 60, half_open_attempts = 3 by default. -/
structure CircuitBreakerConfig where
  failure_threshold : Nat
  timeout_seconds : Rat
  half_open_attempts : Nat
deriving DecidableEq, Repr

/-- Mutable state of a CircuitBreaker instance (fields set in __init__). -/
structure CircuitBreaker where
  state : CircuitState
  failure_count : Nat
  last_failure_time : Option Rat
  half_open_success_count : Nat
deriving DecidableEq, Repr

/-- Fresh breaker as built by CircuitBreaker.__init__. -/
def CircuitBreaker.init : CircuitBreaker :=
  ⟨CircuitState.CLOSED, 0, none, 0⟩

/-- CircuitBreaker._should_attempt_reset: timeout elapsed since the last
failure (False when no failure was recorded). -/
def should_attempt_reset (cfg : CircuitBreakerConfig) (cb : CircuitBreaker)
    (now : Rat) : Bool :=
  match cb.last_failure_time with
  | none => false
  | some t => now - t ≥ cfg.timeout_seconds

/-- CircuitBreaker._transition_to_half_open. -/
def transition_to_half_open (cb : CircuitBreaker) : CircuitBreaker :=
  { cb with state := CircuitState.HALF_OPEN, half_open_success_count := 0 }

/-- CircuitBreaker._trip. -/
def trip (cb : CircuitBreaker) : CircuitBreaker :=
  { cb with state := CircuitState.OPEN }

/-- CircuitBreaker._reset. -/
def reset (_cb : CircuitBreaker) : CircuitBreaker :=
  ⟨CircuitState.CLOSED, 0, none, 0⟩

/-- CircuitBreaker._on_success. -/
def on_success (cfg : CircuitBreakerConfig) (cb : CircuitBreaker) :
    CircuitBreaker :=
  if cb.state = CircuitState.HALF_OPEN then
    let cb1 : CircuitBreaker :=
      { cb with
        half_open_success_count := cb.half_open_success_count + 1 }
    if cb1.half_open_success_count ≥ cfg.half_open_attempts then reset cb1
    else cb1
  else reset cb

/-- CircuitBreaker._on_failure (time.time() is the `now` argument). -/
def on_failure (cfg : CircuitBreakerConfig) (cb : CircuitBreaker)
    (now : Rat) : CircuitBreaker :=
  let cb1 : CircuitBreaker :=
    { cb with
      failure_count := cb.failure_count + 1
      last_failure_time := some now }
  if cb1.state = CircuitState.HALF_OPEN then trip cb1
  else if cb1.failure_count ≥ cfg.failure_threshold then trip cb1
  else cb1

/-- The OPEN-state gate at the top of execute_with_circuit_breaker: either
proceed with a (possibly HALF_OPEN) breaker, or raise without calling the
wrapped function. -/
def circuit_gate (cfg : CircuitBreakerConfig) (cb : CircuitBreaker)
    (now : Rat) : PyResult CircuitBreaker :=
  if cb.state = CircuitState.OPEN then
    if should_attempt_reset cfg cb now then
      PyResult.ok (transition_to_half_open cb)
    else PyResult.exc "Circuit breaker is OPEN"
  else PyResult.ok cb

/-- Result of one execute_with_circuit_breaker call: the outcome, the new
breaker state, and whether the wrapped function was invoked. -/
structure ExecResult (α : Type) where
  result : PyResult α
  breaker : CircuitBreaker
  invoked : Bool
deriving DecidableEq, Repr

/-- CircuitBreaker.execute_with_circuit_breaker.  `fn` is the behaviour of
the wrapped call (its value, or the exception it raises). -/
def execute_with_circuit_breaker {α : Type} (cfg : CircuitBreakerConfig)
    (cb : CircuitBreaker) (now : Rat) (fn : PyResult α) : ExecResult α :=
  match circuit_gate cfg cb now with
  | PyResult.exc e => ⟨PyResult.exc e, cb, false⟩
  | PyResult.ok cb1 =>
    match fn with
    | PyResult.ok v => ⟨PyResult.ok v, on_success cfg cb1, true⟩
    | PyResult.exc e => ⟨PyResult.exc e, on_failure cfg cb1 now, true⟩

end Msa.CircuitTool

namespace Msa.RateTool

open Msa

/-! Embedding of src/msa/tools/rate_limiter.py.  time.time() becomes an
explicit `now : Rat`; the sleep-poll loop of queue_request consumes a list
of attempt times (one wall-clock reading per loop iteration), so running
out of that list is fuel exhaustion in the model, returned as `none`. -/

/-- class RateLimitConfig. -/
structure RateLimitConfig where
  requests_per_second : Rat
  bucket_capacity : Nat
  adaptive_throttling : Bool
deriving DecidableEq, Repr

/-- Mutable state of a RateLimiter instance: per-endpoint token counts,
last refill times, and usage stats (requests, throttled). -/
structure RateLimiter where
  tokens : List (String × Rat)
  last_refill : List (String × Rat)
  usage_stats : List (String × (Nat × Nat))
deriving DecidableEq, Repr

/-- Fresh limiter as built by RateLimiter.__init__. -/
def RateLimiter.init : RateLimiter := ⟨[], [], []⟩

/-- RateLimiter._refill_tokens. -/
def refill_tokens (cfg : RateLimitConfig) (rl : RateLimiter)
    (endpoint : String) (now : Rat) : RateLimiter :=
  match dget rl.last_refill endpoint with
  | none =>
    { rl with
      last_refill := dset rl.last_refill endpoint now
      tokens := dset rl.tokens endpoint (cfg.bucket_capacity : Rat) }
  | some last =>
    let time_elapsed := rSub now last
    let new_tokens := rMul time_elapsed cfg.requests_per_second
    let cur := (dget rl.tokens endpoint).getD 0
    { rl with
      tokens := dset rl.tokens endpoint
        (pyMin (cfg.bucket_capacity : Rat) (rAdd cur new_tokens))
      last_refill := dset rl.last_refill endpoint now }

/-- RateLimiter._consume_token: returns whether a token was consumed and
the updated limiter state. -/
def consume_token (cfg : RateLimitConfig) (rl : RateLimiter)
    (endpoint : String) (now : Rat) : Bool × RateLimiter :=
  let rl1 :=
    if (dget rl.usage_stats endpoint).isNone then
      { rl with usage_stats := dset rl.usage_stats endpoint (0, 0) }
    else rl
  let rl2 :=
    if (dget rl1.tokens endpoint).isNone then
      { rl1 with
        tokens := dset rl1.tokens endpoint (cfg.bucket_capacity : Rat)
        last_refill := dset rl1.last_refill endpoint now }
    else if (dget rl1.last_refill endpoint).isNone then
      { rl1 with
        tokens := dset rl1.tokens endpoint (cfg.bucket_capacity : Rat)
        last_refill := dset rl1.last_refill endpoint now }
    else rl1
  let rl3 := refill_tokens cfg rl2 endpoint now
  let cur := (dget rl3.tokens endpoint).getD 0
  let stats := (dget rl3.usage_stats endpoint).getD (0, 0)
  if cur ≥ 1 then
    (true,
      { rl3 with
        tokens := dset rl3.tokens endpoint (rSub cur 1)
        usage_stats := dset rl3.usage_stats endpoint
          (stats.1 + 1, stats.2) })
  else
    (false,
      { rl3 with
        usage_stats := dset rl3.usage_stats endpoint
          (stats.1, stats.2 + 1) })

/-- Python float division: raises ZeroDivisionError on a zero divisor. -/
def pyDiv (a b : Rat) : PyResult Rat :=
  if b = 0 then PyResult.exc "ZeroDivisionError" else PyResult.ok (rDiv a b)

/-- RateLimiter.queue_request.  Each loop iteration reads the clock once
(head of `times`); `fn` is the behaviour of the queued call.  Returns
`none` when `times` is exhausted while still throttled (model fuel). -/
def queue_request {α : Type} (cfg : RateLimitConfig) (rl : RateLimiter)
    (endpoint : String) (times : List Rat) (fn : PyResult α) :
    Option (PyResult α × RateLimiter) :=
  match times with
  | [] => none
  | now :: rest =>
    match consume_token cfg rl endpoint now with
    | (true, rl1) => some (fn, rl1)
    | (false, rl1) =>
      match pyDiv 1 cfg.requests_per_second with
      | PyResult.exc e => some (PyResult.exc e, rl1)
      | PyResult.ok _sleep_time => queue_request cfg rl1 endpoint rest fn

end Msa.RateTool

namespace Msa.Memory

open Msa

/-! Embedding of src/msa/memory/models.py, src/msa/memory/temporal.py and
src/msa/memory/manager.py.  datetime values become rationals (seconds);
Python dict[str, Any] payloads become `JValue` JSON trees.  The JSON text
produced by model_dump_json is identified with its parse tree, so
serialize lands in `JValue` and deserialize consumes a `JValue`. -/

/-- A JSON value (the image of pydantic model_dump_json / the input of
model_validate after json.loads). -/
inductive JValue where
  | null : JValue
  | bool (b : Bool) : JValue
  | num (q : Rat) : JValue
  | str (s : String) : JValue
  | arr (l : List JValue) : JValue
  | obj (l : List (String × JValue)) : JValue

/-- class Fact (models.py). -/
structure Fact where
  id : String
  content : String
  source : String
  timestamp : Rat
  confidence : Rat
deriving DecidableEq, Repr

/-- class Relationship (models.py). -/
structure Relationship where
  id : String
  subject : String
  predicate : String
  object : String
  confidence : Rat
deriving DecidableEq, Repr

/-- A runtime value stored in InformationStore.relationships: either a
proper Relationship model instance, or one of the raw dicts that
infer_relationships inserts (the assignment is annotated type-ignore in
manager.py and bypasses pydantic validation). -/
inductive RelEntry where
  | model (r : Relationship) : RelEntry
  | rawDict (d : List (String × JValue)) : RelEntry

/-- class SourceMetadata (models.py). -/
structure SourceMetadata where
  id : String
  url : Option String
  credibility : Rat
  retrieval_date : Rat
deriving DecidableEq, Repr

/-- class QueryRefinement (memory/models.py). -/
structure QueryRefinement where
  original : String
  refined : String
  reason : String
deriving DecidableEq, Repr

/-- class QueryState (models.py). -/
structure QueryState where
  original_query : String
  refined_queries : List String
  query_history : List QueryRefinement
  current_focus : String
deriving DecidableEq, Repr

/-- class ActionRecord (models.py); the result field is Any with default
None, so a Python None is the JSON null. -/
structure ActionRecord where
  action_type : String
  timestamp : Rat
  parameters : List (String × JValue)
  result : JValue

/-- class ToolCall (models.py). -/
structure ToolCall where
  tool_name : String
  parameters : List (String × JValue)
  timestamp : Rat

/-- class ToolResponse (memory/models.py, distinct from tools/base.py). -/
structure ToolResponse where
  tool_name : String
  response_data : List (String × JValue)
  timestamp : Rat
  metadata : List (String × JValue)

/-- class ExecutionHistory (models.py). -/
structure ExecutionHistory where
  actions_taken : List ActionRecord
  timestamps : List (String × Rat)
  tool_call_sequence : List ToolCall
  intermediate_results : List ToolResponse

/-- class ReasoningState (models.py). -/
structure ReasoningState where
  current_hypothesis : String
  answer_draft : String
  information_gaps : List String
  next_steps : List String
  termination_criteria_met : Bool
  temporal_context : List (String × JValue)

/-- class InformationStore (models.py). -/
structure InformationStore where
  facts : List (String × Fact)
  relationships : List (String × RelEntry)
  sources : List (String × SourceMetadata)
  confidence_scores : List (String × Rat)

/-- class WorkingMemory (models.py). -/
structure WorkingMemory where
  query_state : QueryState
  execution_history : ExecutionHistory
  information_store : InformationStore
  reasoning_state : ReasoningState
  created_at : Rat
  updated_at : Rat

/-- State of a WorkingMemoryManager instance (manager.py __init__ also
sets max_facts = 100 and prune_threshold = 0.3). -/
structure WorkingMemoryManager where
  memory : WorkingMemory
  max_facts : Nat
  prune_threshold : Rat

/-- WorkingMemoryManager.__init__(initial_query) at wall-clock `now`. -/
def managerInit (initial_query : String) (now : Rat) : WorkingMemoryManager :=
  { memory :=
      { query_state :=
          { original_query := initial_query
            refined_queries := []
            query_history := []
            current_focus := initial_query }
        execution_history :=
          { actions_taken := []
            timestamps := [("created", now)]
            tool_call_sequence := []
            intermediate_results := [] }
        information_store :=
          { facts := []
            relationships := []
            sources := []
            confidence_scores := [] }
        reasoning_state :=
          { current_hypothesis := ""
            answer_draft := ""
            information_gaps := []
            next_steps := []
            termination_criteria_met := false
            temporal_context := [] }
        created_at := now
        updated_at := now }
    max_facts := 100
    prune_threshold := mkRat 3 10 }

/-- The observation dict passed to add_observation; absent keys are `none`
(observation.get supplies the defaults). -/
structure Observation where
  content : Option String
  source : Option String
  confidence : Option Rat
  source_credibility : Option Rat
deriving DecidableEq, Repr

/-- Stable insertion keeping a list sorted by descending key: an element
is placed after every earlier element whose key is not smaller, which
reproduces CPython list.sort(key=..., reverse=True) tie behaviour. -/
def insertDescBy {β : Type} (key : β → Rat) (x : β) :
    List β → List β
  | [] => [x]
  | y :: t => if key y < key x then x :: y :: t else y :: insertDescBy key x t

/-- Stable descending sort by a rational key (Python stable sort with
reverse=True produces exactly this ordering). -/
def sortDescBy {β : Type} (key : β → Rat) (l : List β) : List β :=
  l.foldl (fun acc x => insertDescBy key x acc) []

/-- Stable insertion for ascending order (Python stable sort). -/
def insertAscBy {β : Type} (key : β → Rat) (x : β) :
    List β → List β
  | [] => [x]
  | y :: t => if key x < key y then x :: y :: t else y :: insertAscBy key x t

/-- Stable ascending sort by a rational key. -/
def sortAscBy {β : Type} (key : β → Rat) (l : List β) : List β :=
  l.foldl (fun acc x => insertAscBy key x acc) []

/-- The combined pruning score of one fact at wall-clock `now`
(prune_memory lines 367-380): 0.7 * confidence + 0.3 * recency with
recency = max(0, 1 - age / 86400). -/
def combinedScore (f : Fact) (now : Rat) : Rat :=
  let time_diff := rSub now f.timestamp
  let recency_score := pyMax 0 (rSub 1 (rDiv time_diff 86400))
  rAdd (rMul (mkRat 7 10) f.confidence) (rMul (mkRat 3 10) recency_score)

/-- WorkingMemoryManager.prune_memory at wall-clock `now`. -/
def prune_memory (mm : WorkingMemoryManager) (now : Rat) :
    WorkingMemoryManager :=
  let store := mm.memory.information_store
  let facts := store.facts.map Prod.snd
  if facts.length ≤ mm.max_facts then mm
  else
    let fact_scores := facts.map (fun f => (f.id, combinedScore f now))
    let sorted := sortDescBy Prod.snd fact_scores
    let facts_to_remove := facts.length - mm.max_facts
    let removeIds :=
      (sorted.drop (sorted.length - facts_to_remove)).map Prod.fst
    let newFacts := removeIds.foldl (fun d k => ddel d k) store.facts
    let newScores :=
      removeIds.foldl (fun d k => ddel d k) store.confidence_scores
    { mm with
      memory :=
        { mm.memory with
          information_store :=
            { store with
              facts := newFacts
              confidence_scores := newScores }
          updated_at := now } }

/-- WorkingMemoryManager.add_observation at wall-clock `now`. -/
def add_observation (mm : WorkingMemoryManager) (now : Rat)
    (observation : Observation) : WorkingMemoryManager :=
  let store := mm.memory.information_store
  let fact_id := "fact_" ++ toString (store.facts.length + 1)
  let fact : Fact :=
    { id := fact_id
      content := observation.content.getD ""
      source := observation.source.getD "unknown"
      timestamp := now
      confidence := observation.confidence.getD 0 }
  let facts1 := dset store.facts fact_id fact
  let scores1 := dset store.confidence_scores fact_id fact.confidence
  let source_id := observation.source.getD "unknown"
  let sources1 :=
    if (dget store.sources source_id).isNone then
      dset store.sources source_id
        { id := source_id
          url := none
          credibility := observation.source_credibility.getD (mkRat 1 2)
          retrieval_date := now }
    else store.sources
  let mm1 : WorkingMemoryManager :=
    { mm with
      memory :=
        { mm.memory with
          information_store :=
            { store with
              facts := facts1
              confidence_scores := scores1
              sources := sources1 }
          updated_at := now } }
  if mm1.memory.information_store.facts.length > mm1.max_facts then
    prune_memory mm1 now
  else mm1

/-- WorkingMemoryManager.update_confidence_scores at wall-clock `now`. -/
def update_confidence_scores (mm : WorkingMemoryManager) (now : Rat) :
    WorkingMemoryManager :=
  let store := mm.memory.information_store
  let facts1 := store.facts.map (fun p =>
    match dget store.sources p.2.source with
    | some s =>
      (p.1, { p.2 with
        confidence := rDiv (rAdd p.2.confidence s.credibility) 2 })
    | none => p)
  let scores1 := store.facts.foldl (fun sc p =>
    match dget store.sources p.2.source with
    | some s => dset sc p.1 (rDiv (rAdd p.2.confidence s.credibility) 2)
    | none => sc) store.confidence_scores
  { mm with
    memory :=
      { mm.memory with
        information_store :=
          { store with
            facts := facts1
            confidence_scores := scores1 }
        updated_at := now } }

end Msa.Memory

namespace Msa.Memory

open Msa

/-- One temporal-relationship dict built by
TemporalReasoner.correlate_temporal_facts. -/
def temporalRelDict (f1 f2 : Fact) (rel : String) :
    List (String × JValue) :=
  [("type", JValue.str "temporal"),
   ("fact1_id", JValue.str f1.id),
   ("fact2_id", JValue.str f2.id),
   ("relationship", JValue.str rel),
   ("confidence", JValue.num (mkRat 8 10))]

/-- TemporalReasoner.correlate_temporal_facts: all ordered pairs i < j,
before/after by strict timestamp comparison. -/
def correlate_temporal_facts : List Fact → List (List (String × JValue))
  | [] => []
  | f1 :: rest =>
    (rest.filterMap (fun f2 =>
      if f1.timestamp < f2.timestamp then
        some (temporalRelDict f1 f2 "before")
      else if f2.timestamp < f1.timestamp then
        some (temporalRelDict f1 f2 "after")
      else none)) ++ correlate_temporal_facts rest

/-- The causal indicator keywords of TemporalReasoner.detect_causality. -/
def causal_indicators : List String :=
  ["because", "due to", "caused by", "leads to", "results in"]

/-- One causal-relationship dict built by detect_causality. -/
def causalRelDict (f1 f2 : Fact) (indicator : String) :
    List (String × JValue) :=
  [("type", JValue.str "causal"),
   ("fact1_id", JValue.str f1.id),
   ("fact2_id", JValue.str f2.id),
   ("relationship", JValue.str "causal"),
   ("confidence", JValue.num (mkRat 6 10)),
   ("indicator", JValue.str indicator)]

/-- TemporalReasoner.detect_causality: pairs within 24 hours whose content
contains a causal indicator (first matching indicator, then break). -/
def detect_causality : List Fact → List (List (String × JValue))
  | [] => []
  | f1 :: rest =>
    (rest.filterMap (fun f2 =>
      if pyAbs (rSub f2.timestamp f1.timestamp) ≤ 86400 then
        match causal_indicators.find? (fun ind =>
          strIn ind (pyLower f1.content) || strIn ind (pyLower f2.content))
        with
        | some ind => some (causalRelDict f1 f2 ind)
        | none => none
      else none)) ++ detect_causality rest

/-- TemporalReasoner.get_temporal_context (timestamps are modelled as
numbers where the Python sorts their ISO strings; both orders agree). -/
def get_temporal_context (memory : WorkingMemory) :
    List (String × JValue) :=
  let temporal_facts :=
    sortAscBy (fun f => f.timestamp)
      (memory.information_store.facts.map Prod.snd)
  let entries := temporal_facts.map (fun f =>
    JValue.obj [("id", JValue.str f.id),
      ("timestamp", JValue.num f.timestamp),
      ("content", JValue.str f.content)])
  [("earliest_timestamp",
      match temporal_facts.head? with
      | some f => JValue.num f.timestamp
      | none => JValue.null),
   ("latest_timestamp",
      match temporal_facts.getLast? with
      | some f => JValue.num f.timestamp
      | none => JValue.null),
   ("temporal_facts", JValue.arr entries)]

/-- String value of a key of a relationship dict (the dicts built above
always carry their keys, mirroring relationship["type"] etc.). -/
def relDictStr (d : List (String × JValue)) (k : String) : String :=
  match dget d k with
  | some (JValue.str s) => s
  | _ => ""

/-- WorkingMemoryManager.infer_relationships. -/
def infer_relationships (mm : WorkingMemoryManager) :
    WorkingMemoryManager :=
  let facts := mm.memory.information_store.facts.map Prod.snd
  let temporal_relationships := correlate_temporal_facts facts
  let causal_relationships := detect_causality facts
  let all_relationships := temporal_relationships ++ causal_relationships
  let rels1 := all_relationships.foldl (fun rels d =>
    let relationship_id :=
      relDictStr d "type" ++ "_" ++ relDictStr d "fact1_id" ++ "_" ++
        relDictStr d "fact2_id"
    dset rels relationship_id (RelEntry.rawDict d))
    mm.memory.information_store.relationships
  let mm1 : WorkingMemoryManager :=
    { mm with
      memory :=
        { mm.memory with
          information_store :=
            { mm.memory.information_store with relationships := rels1 } } }
  let temporal_context := get_temporal_context mm1.memory
  { mm1 with
    memory :=
      { mm1.memory with
        reasoning_state :=
          { mm1.memory.reasoning_state with
            temporal_context := temporal_context } } }

/-- WorkingMemoryManager.summarize_state. -/
def summarize_state (mm : WorkingMemoryManager) :
    List (String × JValue) :=
  let facts := mm.memory.information_store.facts.map Prod.snd
  let sortedFacts := sortDescBy (fun f => f.confidence) facts
  let top_facts := sortedFacts.take 10
  let fact_summaries := top_facts.map (fun f =>
    JValue.obj [("content", JValue.str f.content),
      ("confidence", JValue.num f.confidence),
      ("source", JValue.str f.source)])
  [("query_state", JValue.obj
      [("original_query", JValue.str mm.memory.query_state.original_query),
       ("current_focus", JValue.str mm.memory.query_state.current_focus)]),
   ("reasoning_state", JValue.obj
      [("current_hypothesis",
          JValue.str mm.memory.reasoning_state.current_hypothesis),
       ("answer_draft", JValue.str mm.memory.reasoning_state.answer_draft),
       ("information_gaps", JValue.arr
          ((mm.memory.reasoning_state.information_gaps.take 5).map
            JValue.str))]),
   ("top_facts", JValue.arr fact_summaries),
   ("memory_stats", JValue.obj
      [("total_facts",
          JValue.num (mm.memory.information_store.facts.length : Nat)),
       ("total_relationships",
          JValue.num
            (mm.memory.information_store.relationships.length : Nat)),
       ("created_at", JValue.num mm.memory.created_at),
       ("updated_at", JValue.num mm.memory.updated_at)])]

end Msa.Memory

namespace Msa.Memory

open Msa

/-! Serialization.  WorkingMemoryManager.serialize is
self.memory.model_dump_json(); deserialize is
WorkingMemory.model_validate(json.loads(data)).  The JSON text is
identified with its parse tree, so dumping produces a `JValue` and
validation consumes one.  pydantic dumps a non-model value sitting in a
model-typed field (the raw relationship dicts) as-is with a warning, and
validation of such a field fails when required model fields are missing. -/

/-- Dump of an optional string field (null for None). -/
def dumpOptStr : Option String → JValue
  | none => JValue.null
  | some s => JValue.str s

/-- model_dump of a Fact. -/
def dumpFact (f : Fact) : JValue :=
  JValue.obj [("id", JValue.str f.id), ("content", JValue.str f.content),
    ("source", JValue.str f.source), ("timestamp", JValue.num f.timestamp),
    ("confidence", JValue.num f.confidence)]

/-- model_dump of a Relationship. -/
def dumpRelationship (r : Relationship) : JValue :=
  JValue.obj [("id", JValue.str r.id), ("subject", JValue.str r.subject),
    ("predicate", JValue.str r.predicate),
    ("object", JValue.str r.object),
    ("confidence", JValue.num r.confidence)]

/-- Dump of a relationships-dict value: a model instance dumps through its
schema, a raw dict is dumped as-is (pydantic duck-typed fallback). -/
def dumpRelEntry : RelEntry → JValue
  | RelEntry.model r => dumpRelationship r
  | RelEntry.rawDict d => JValue.obj d

/-- model_dump of a SourceMetadata. -/
def dumpSourceMetadata (s : SourceMetadata) : JValue :=
  JValue.obj [("id", JValue.str s.id), ("url", dumpOptStr s.url),
    ("credibility", JValue.num s.credibility),
    ("retrieval_date", JValue.num s.retrieval_date)]

/-- model_dump of a QueryRefinement. -/
def dumpQueryRefinement (q : QueryRefinement) : JValue :=
  JValue.obj [("original", JValue.str q.original),
    ("refined", JValue.str q.refined), ("reason", JValue.str q.reason)]

/-- model_dump of a QueryState. -/
def dumpQueryState (q : QueryState) : JValue :=
  JValue.obj [("original_query", JValue.str q.original_query),
    ("refined_queries", JValue.arr (q.refined_queries.map JValue.str)),
    ("query_history", JValue.arr (q.query_history.map dumpQueryRefinement)),
    ("current_focus", JValue.str q.current_focus)]

/-- model_dump of an ActionRecord. -/
def dumpActionRecord (a : ActionRecord) : JValue :=
  JValue.obj [("action_type", JValue.str a.action_type),
    ("timestamp", JValue.num a.timestamp),
    ("parameters", JValue.obj a.parameters),
    ("result", a.result)]

/-- model_dump of a ToolCall. -/
def dumpToolCall (t : ToolCall) : JValue :=
  JValue.obj [("tool_name", JValue.str t.tool_name),
    ("parameters", JValue.obj t.parameters),
    ("timestamp", JValue.num t.timestamp)]

/-- model_dump of a memory-model ToolResponse. -/
def dumpToolResponse (t : ToolResponse) : JValue :=
  JValue.obj [("tool_name", JValue.str t.tool_name),
    ("response_data", JValue.obj t.response_data),
    ("timestamp", JValue.num t.timestamp),
    ("metadata", JValue.obj t.metadata)]

/-- model_dump of an ExecutionHistory. -/
def dumpExecutionHistory (e : ExecutionHistory) : JValue :=
  JValue.obj [("actions_taken", JValue.arr
      (e.actions_taken.map dumpActionRecord)),
    ("timestamps", JValue.obj
      (e.timestamps.map (fun p => (p.1, JValue.num p.2)))),
    ("tool_call_sequence", JValue.arr
      (e.tool_call_sequence.map dumpToolCall)),
    ("intermediate_results", JValue.arr
      (e.intermediate_results.map dumpToolResponse))]

/-- model_dump of a ReasoningState. -/
def dumpReasoningState (r : ReasoningState) : JValue :=
  JValue.obj [("current_hypothesis", JValue.str r.current_hypothesis),
    ("answer_draft", JValue.str r.answer_draft),
    ("information_gaps", JValue.arr (r.information_gaps.map JValue.str)),
    ("next_steps", JValue.arr (r.next_steps.map JValue.str)),
    ("termination_criteria_met", JValue.bool r.termination_criteria_met),
    ("temporal_context", JValue.obj r.temporal_context)]

/-- model_dump of an InformationStore. -/
def dumpInformationStore (s : InformationStore) : JValue :=
  JValue.obj [("facts", JValue.obj
      (s.facts.map (fun p => (p.1, dumpFact p.2)))),
    ("relationships", JValue.obj
      (s.relationships.map (fun p => (p.1, dumpRelEntry p.2)))),
    ("sources", JValue.obj
      (s.sources.map (fun p => (p.1, dumpSourceMetadata p.2)))),
    ("confidence_scores", JValue.obj
      (s.confidence_scores.map (fun p => (p.1, JValue.num p.2))))]

/-- model_dump of a WorkingMemory: the payload of
WorkingMemoryManager.serialize. -/
def dumpWorkingMemory (m : WorkingMemory) : JValue :=
  JValue.obj [("query_state", dumpQueryState m.query_state),
    ("execution_history", dumpExecutionHistory m.execution_history),
    ("information_store", dumpInformationStore m.information_store),
    ("reasoning_state", dumpReasoningState m.reasoning_state),
    ("created_at", JValue.num m.created_at),
    ("updated_at", JValue.num m.updated_at)]

/-- Field access in validation: a missing required field is a
pydantic ValidationError. -/
def jField (l : List (String × JValue)) (k : String) :
    Except String JValue :=
  match dget l k with
  | some v => Except.ok v
  | none => Except.error ("missing field " ++ k)

/-- A field validated as a string. -/
def jStr : JValue → Except String String
  | JValue.str s => Except.ok s
  | _ => Except.error "expected string"

/-- A field validated as a number. -/
def jNum : JValue → Except String Rat
  | JValue.num q => Except.ok q
  | _ => Except.error "expected number"

/-- A field validated as a boolean. -/
def jBool : JValue → Except String Bool
  | JValue.bool b => Except.ok b
  | _ => Except.error "expected bool"

/-- A field validated as an optional string. -/
def jOptStr : JValue → Except String (Option String)
  | JValue.null => Except.ok none
  | JValue.str s => Except.ok (some s)
  | _ => Except.error "expected optional string"

/-- A field validated as an arbitrary JSON object (dict[str, Any]). -/
def jAnyObj : JValue → Except String (List (String × JValue))
  | JValue.obj l => Except.ok l
  | _ => Except.error "expected object"

/-- Per-item validation of a list, failing on the first invalid item. -/
def exListMapM {α β : Type} (v : α → Except String β) :
    List α → Except String (List β)
  | [] => Except.ok []
  | a :: t =>
    match v a with
    | Except.error e => Except.error e
    | Except.ok b =>
      match exListMapM v t with
      | Except.error e => Except.error e
      | Except.ok bs => Except.ok (b :: bs)

/-- A field validated as a JSON array whose items validate pointwise. -/
def jArrOf {α : Type} (v : JValue → Except String α) :
    JValue → Except String (List α)
  | JValue.arr l => exListMapM v l
  | _ => Except.error "expected array"

/-- A field validated as a JSON object whose values validate pointwise
(dict[str, Model]). -/
def jObjOf {α : Type} (v : JValue → Except String α) :
    JValue → Except String (List (String × α))
  | JValue.obj l =>
    exListMapM (fun p => Except.map (fun a => (p.1, a)) (v p.2)) l
  | _ => Except.error "expected object"

/-- model_validate of a Fact. -/
def validateFact (j : JValue) : Except String Fact := do
  let l ← jAnyObj j
  let id ← jStr (← jField l "id")
  let content ← jStr (← jField l "content")
  let source ← jStr (← jField l "source")
  let timestamp ← jNum (← jField l "timestamp")
  let confidence ← jNum (← jField l "confidence")
  pure ⟨id, content, source, timestamp, confidence⟩

/-- model_validate of a Relationship: requires the model fields id,
subject, predicate, object, confidence. -/
def validateRelationship (j : JValue) : Except String RelEntry := do
  let l ← jAnyObj j
  let id ← jStr (← jField l "id")
  let subject ← jStr (← jField l "subject")
  let predicate ← jStr (← jField l "predicate")
  let object ← jStr (← jField l "object")
  let confidence ← jNum (← jField l "confidence")
  pure (RelEntry.model ⟨id, subject, predicate, object, confidence⟩)

/-- model_validate of a SourceMetadata. -/
def validateSourceMetadata (j : JValue) : Except String SourceMetadata := do
  let l ← jAnyObj j
  let id ← jStr (← jField l "id")
  let url ← jOptStr ((dget l "url").getD JValue.null)
  let credibility ← jNum (← jField l "credibility")
  let retrieval_date ← jNum (← jField l "retrieval_date")
  pure ⟨id, url, credibility, retrieval_date⟩

/-- model_validate of a QueryRefinement. -/
def validateQueryRefinement (j : JValue) : Except String QueryRefinement := do
  let l ← jAnyObj j
  let original ← jStr (← jField l "original")
  let refined ← jStr (← jField l "refined")
  let reason ← jStr (← jField l "reason")
  pure ⟨original, refined, reason⟩

/-- model_validate of a QueryState. -/
def validateQueryState (j : JValue) : Except String QueryState := do
  let l ← jAnyObj j
  let original_query ← jStr (← jField l "original_query")
  let refined_queries ← jArrOf jStr (← jField l "refined_queries")
  let query_history ←
    jArrOf validateQueryRefinement (← jField l "query_history")
  let current_focus ← jStr (← jField l "current_focus")
  pure ⟨original_query, refined_queries, query_history, current_focus⟩

/-- model_validate of an ActionRecord. -/
def validateActionRecord (j : JValue) : Except String ActionRecord := do
  let l ← jAnyObj j
  let action_type ← jStr (← jField l "action_type")
  let timestamp ← jNum (← jField l "timestamp")
  let parameters ← jAnyObj (← jField l "parameters")
  let result := (dget l "result").getD JValue.null
  pure ⟨action_type, timestamp, parameters, result⟩

/-- model_validate of a ToolCall. -/
def validateToolCall (j : JValue) : Except String ToolCall := do
  let l ← jAnyObj j
  let tool_name ← jStr (← jField l "tool_name")
  let parameters ← jAnyObj (← jField l "parameters")
  let timestamp ← jNum (← jField l "timestamp")
  pure ⟨tool_name, parameters, timestamp⟩

/-- model_validate of a memory-model ToolResponse. -/
def validateToolResponse (j : JValue) : Except String ToolResponse := do
  let l ← jAnyObj j
  let tool_name ← jStr (← jField l "tool_name")
  let response_data ← jAnyObj (← jField l "response_data")
  let timestamp ← jNum (← jField l "timestamp")
  let metadata ← jAnyObj (← jField l "metadata")
  pure ⟨tool_name, response_data, timestamp, metadata⟩

/-- model_validate of an ExecutionHistory. -/
def validateExecutionHistory (j : JValue) :
    Except String ExecutionHistory := do
  let l ← jAnyObj j
  let actions_taken ←
    jArrOf validateActionRecord (← jField l "actions_taken")
  let timestamps ← jObjOf jNum (← jField l "timestamps")
  let tool_call_sequence ←
    jArrOf validateToolCall (← jField l "tool_call_sequence")
  let intermediate_results ←
    jArrOf validateToolResponse (← jField l "intermediate_results")
  pure ⟨actions_taken, timestamps, tool_call_sequence,
    intermediate_results⟩

/-- model_validate of a ReasoningState. -/
def validateReasoningState (j : JValue) : Except String ReasoningState := do
  let l ← jAnyObj j
  let current_hypothesis ← jStr (← jField l "current_hypothesis")
  let answer_draft ← jStr (← jField l "answer_draft")
  let information_gaps ← jArrOf jStr (← jField l "information_gaps")
  let next_steps ← jArrOf jStr (← jField l "next_steps")
  let termination_criteria_met ←
    jBool (← jField l "termination_criteria_met")
  let temporal_context ←
    jAnyObj ((dget l "temporal_context").getD (JValue.obj []))
  pure ⟨current_hypothesis, answer_draft, information_gaps, next_steps,
    termination_criteria_met, temporal_context⟩

/-- model_validate of an InformationStore. -/
def validateInformationStore (j : JValue) :
    Except String InformationStore := do
  let l ← jAnyObj j
  let facts ← jObjOf validateFact (← jField l "facts")
  let relationships ←
    jObjOf validateRelationship (← jField l "relationships")
  let sources ← jObjOf validateSourceMetadata (← jField l "sources")
  let confidence_scores ← jObjOf jNum (← jField l "confidence_scores")
  pure ⟨facts, relationships, sources, confidence_scores⟩

/-- WorkingMemory.model_validate: the core of
WorkingMemoryManager.deserialize (which replaces the held memory with the
result and resets the stateless temporal reasoner). -/
def validateWorkingMemory (j : JValue) : Except String WorkingMemory := do
  let l ← jAnyObj j
  let query_state ← validateQueryState (← jField l "query_state")
  let execution_history ←
    validateExecutionHistory (← jField l "execution_history")
  let information_store ←
    validateInformationStore (← jField l "information_store")
  let reasoning_state ←
    validateReasoningState (← jField l "reasoning_state")
  let created_at ← jNum (← jField l "created_at")
  let updated_at ← jNum (← jField l "updated_at")
  pure ⟨query_state, execution_history, information_store,
    reasoning_state, created_at, updated_at⟩

/-- WorkingMemoryManager.serialize. -/
def serialize (mm : WorkingMemoryManager) : JValue :=
  dumpWorkingMemory mm.memory

/-- WorkingMemoryManager.deserialize (returns the validated memory, which
also replaces the memory held by the manager wholesale). -/
def deserialize (data : JValue) : Except String WorkingMemory :=
  validateWorkingMemory data

/-- The composite of the claim: deserialize a snapshot, then serialize the
result (propagating a validation failure). -/
def serializeAfterDeserialize (data : JValue) : Except String JValue :=
  Except.map dumpWorkingMemory (deserialize data)

/-- True when an Except carries a value. -/
def exceptIsOk {ε α : Type} : Except ε α → Bool
  | Except.ok _ => true
  | Except.error _ => false

end Msa.Memory

namespace Msa.Orchestration

open Msa Msa.Memory

/-! Embedding of src/msa/orchestration/conflict.py, confidence.py and
synthesis.py. -/

/-- Fractional decimal digits of rem/den (rem < den), stopping when the
remainder vanishes; fuel bounds the expansion like Python float repr. -/
def fracDigits : Nat → Nat → Nat → String
  | 0, _, _ => ""
  | _ + 1, 0, _ => ""
  | fuel + 1, rem, den =>
    let rem10 := rem * 10
    let digit := rem10 / den
    toString digit ++ fracDigits fuel (rem10 % den) den

/-- Python str() of a float value (exact for the terminating decimals the
repository produces, e.g. str(0.9) = "0.9"; integral floats show ".0"). -/
def pyFloatStr (q : Rat) : String :=
  let sign := if q < 0 then "-" else ""
  let n := q.num.natAbs
  let d := q.den
  let i := n / d
  let rem := n % d
  sign ++ toString i ++ "." ++
    (if rem = 0 then "0" else fracDigits 17 rem d)

/-- Python format spec .1f: one fractional digit, rounding half to even
(only applied to non-negative report percentages here). -/
def formatFix1 (q : Rat) : String :=
  let x := rMul q 10
  let fl := x.floor
  let frac := rSub x (fl : Rat)
  let r : Int :=
    if mkRat 1 2 < frac then fl + 1
    else if frac < mkRat 1 2 then fl
    else if fl % 2 = 0 then fl else fl + 1
  let n := r.natAbs
  (if r < 0 then "-" else "") ++ toString (n / 10) ++ "." ++ toString (n % 10)

/-- A detected conflict dict (ConflictResolver.detect_conflicts). -/
structure Conflict where
  fact1 : Fact
  fact2 : Fact
  type : String
  description : String
deriving DecidableEq, Repr

/-- An investigation dict (ConflictResolver.investigate_conflicts). -/
structure Investigation where
  conflict : Conflict
  investigation : String
  sources : List String
deriving DecidableEq, Repr

/-- A resolution dict (ConflictResolver.resolve_conflicts). -/
structure Resolution where
  preferred_fact : Fact
  rejected_fact : Fact
  reasoning : String
deriving DecidableEq, Repr

/-- The fixed antonym-phrase table of ConflictResolver._are_contradictory. -/
def contradictory_pairs : List (String × String) :=
  [("is true", "is false"), ("did happen", "did not happen"),
   ("does exist", "does not exist"), ("is correct", "is incorrect"),
   ("is round", "is flat"), ("is flat", "is round")]

/-- ConflictResolver._are_contradictory. -/
def are_contradictory (fact1 fact2 : Fact) : Bool :=
  let content1 := pyLower fact1.content
  let content2 := pyLower fact2.content
  (contradictory_pairs.any (fun pair =>
    (strIn pair.1 content1 && strIn pair.2 content2) ||
    (strIn pair.1 content2 && strIn pair.2 content1))) ||
  (strIn "round" content1 && strIn "flat" content2) ||
  (strIn "flat" content1 && strIn "round" content2)

/-- The inner pair scan of detect_conflicts (each fact against all later
facts). -/
def detectConflictsScan : List Fact → List Conflict
  | [] => []
  | fact1 :: rest =>
    (rest.filterMap (fun fact2 =>
      if are_contradictory fact1 fact2 then
        some ⟨fact1, fact2, "contradiction",
          "Contradiction between \x27" ++ fact1.content ++
            "\x27 and \x27" ++ fact2.content ++ "\x27"⟩
      else none)) ++ detectConflictsScan rest

/-- ConflictResolver.detect_conflicts. -/
def detect_conflicts (memory : WorkingMemory) : List Conflict :=
  detectConflictsScan (memory.information_store.facts.map Prod.snd)

/-- ConflictResolver.investigate_conflicts. -/
def investigate_conflicts (conflicts : List Conflict)
    (_memory : WorkingMemory) : List Investigation :=
  conflicts.map (fun conflict =>
    ⟨conflict,
      "Investigation would use additional tools to gather context",
      [conflict.fact1.source, conflict.fact2.source]⟩)

/-- The loop body of ConflictResolver.resolve_conflicts. -/
def resolveOne (investigation : Investigation) : Resolution :=
  let fact1 := investigation.conflict.fact1
  let fact2 := investigation.conflict.fact2
  if fact2.confidence < fact1.confidence then
    ⟨fact1, fact2,
      "Fact 1 has higher confidence (" ++ pyFloatStr fact1.confidence ++
        ") than Fact 2 (" ++ pyFloatStr fact2.confidence ++ ")"⟩
  else if fact1.confidence < fact2.confidence then
    ⟨fact2, fact1,
      "Fact 2 has higher confidence (" ++ pyFloatStr fact2.confidence ++
        ") than Fact 1 (" ++ pyFloatStr fact1.confidence ++ ")"⟩
  else
    ⟨fact1, fact2, "Facts have equal confidence, keeping first encountered"⟩

/-- ConflictResolver.resolve_conflicts. -/
def resolve_conflicts (investigations : List Investigation)
    (_memory : WorkingMemory) : List Resolution :=
  investigations.map resolveOne

/-- Source credibility weights (ConfidenceScorer.__init__). -/
def source_weights : List (String × Rat) :=
  [("peer_reviewed", 1), ("government", mkRat 95 100),
   ("news_organization", mkRat 9 10), ("wikipedia", mkRat 85 100),
   ("educational", mkRat 8 10), ("blog", mkRat 6 10),
   ("social_media", mkRat 4 10), ("unknown", mkRat 1 2)]

/-- Source keyword categories (ConfidenceScorer.__init__). -/
def source_categories : List (String × String) :=
  [("wikipedia", "wikipedia"), ("wiki", "wikipedia"),
   ("gov", "government"), ("edu", "educational"),
   ("news", "news_organization")]

/-- ConfidenceScorer.calculate_source_credibility. -/
def calculate_source_credibility (source_name : String) : Rat :=
  let source_lower := pyLower source_name
  let category :=
    match source_categories.find? (fun p => strIn p.1 source_lower) with
    | some p => p.2
    | none => "unknown"
  (dget source_weights category).getD ((dget source_weights "unknown").getD 0)

/-- ConfidenceScorer.calculate_temporal_consistency (fixed heuristic). -/
def calculate_temporal_consistency (_facts : List Fact) : Rat :=
  mkRat 9 10

/-- ConfidenceScorer.calculate_consistency_score: perfect consistency
below two facts, else the fixed heuristic. -/
def calculate_consistency_score (facts : List Fact) : Rat :=
  if facts.length < 2 then 1 else mkRat 85 100

/-- ConfidenceScorer.calculate_completeness_score. -/
def calculate_completeness_score (facts : List Fact) (_query : String) :
    Rat :=
  pyMin 1 (rDiv (facts.length : Rat) 5)

/-- The five-key result dict of calculate_confidence_score. -/
structure ConfidenceResult where
  overall_confidence : Rat
  source_credibility : Rat
  temporal_consistency : Rat
  cross_source_consistency : Rat
  completeness : Rat
deriving DecidableEq, Repr

/-- ConfidenceScorer.calculate_confidence_score. -/
def calculate_confidence_score (memory : WorkingMemory) (query : String) :
    ConfidenceResult :=
  let facts := memory.information_store.facts.map Prod.snd
  if facts.isEmpty then ⟨0, 0, 0, 0, 0⟩
  else
    let source_scores := facts.map (fun fact =>
      let source_name :=
        if fact.source ≠ "" then
          match dget memory.information_store.sources fact.source with
          | some source_metadata =>
            if source_metadata.id ≠ "" then source_metadata.id
            else "unknown"
          | none => "unknown"
        else "unknown"
      calculate_source_credibility source_name)
    let source_credibility :=
      if source_scores.isEmpty then 0
      else rDiv (source_scores.foldl rAdd 0) (source_scores.length : Rat)
    let temporal_consistency := calculate_temporal_consistency facts
    let cross_source_consistency := calculate_consistency_score facts
    let completeness := calculate_completeness_score facts query
    let overall_confidence :=
      rMul (rAdd (rAdd (rAdd (rMul source_credibility (mkRat 4 10))
        (rMul temporal_consistency (mkRat 2 10)))
        (rMul cross_source_consistency (mkRat 2 10)))
        (rMul completeness (mkRat 2 10))) 100
    ⟨overall_confidence, rMul source_credibility 100,
      rMul temporal_consistency 100, rMul cross_source_consistency 100,
      rMul completeness 100⟩

/-- ConfidenceScorer.generate_confidence_report. -/
def generate_confidence_report (confidence_data : ConfidenceResult) :
    String :=
  "Confidence Report:\n- Overall Confidence: " ++
    formatFix1 confidence_data.overall_confidence ++
    "%\n- Source Credibility: " ++
    formatFix1 confidence_data.source_credibility ++
    "%\n- Temporal Consistency: " ++
    formatFix1 confidence_data.temporal_consistency ++
    "%\n- Cross-Source Consistency: " ++
    formatFix1 confidence_data.cross_source_consistency ++
    "%\n- Completeness: " ++
    formatFix1 confidence_data.completeness ++ "%"

/-- class SynthesizedAnswer (orchestration/models.py). -/
structure SynthesizedAnswer where
  answer : String
  reasoning_steps : List String
  confidence : Rat
deriving DecidableEq, Repr

/-- The response shapes _perform_final_reasoning distinguishes after the
completion-client call. -/
inductive SynthResponse where
  | objParsed (sa : SynthesizedAnswer) : SynthResponse
  | dictParsedObj (sa : SynthesizedAnswer) : SynthResponse
  | dictParsedDict (r : PyResult SynthesizedAnswer) : SynthResponse
  | fallthrough : SynthResponse
deriving DecidableEq, Repr

/-- SynthesisEngine.eliminate_redundancy (identity extension point). -/
def eliminate_redundancy (facts : List Fact) : List Fact := facts

/-- SynthesisEngine.construct_narrative. -/
def construct_narrative (facts : List Fact) (_query : String) : String :=
  if facts.isEmpty then
    "No relevant information was found to answer the question."
  else
    "Based on the information gathered:\n" ++
      String.intercalate "\n" (facts.map (fun fact => "- " ++ fact.content))

/-- SynthesisEngine.generate_citations (str(datetime) is modelled by the
numeric timestamp rendering). -/
def generate_citations (facts : List Fact) : String :=
  if facts.isEmpty then ""
  else
    let citations := facts.enum.filterMap (fun p =>
      if p.2.source ≠ "" then
        some (toString (p.1 + 1) ++ ". " ++ p.2.source ++
          " (Retrieved: " ++ pyFloatStr p.2.timestamp ++ ")")
      else none)
    if citations.isEmpty then ""
    else String.intercalate "\n" ("## Sources:" :: citations)

/-- SynthesisEngine._perform_final_reasoning: the call outcome and its
response-shape dispatch, with every failure caught and turned into the
narrative fallback SynthesizedAnswer. -/
def perform_final_reasoning (call : PyResult SynthResponse)
    (facts : List Fact) (query : String) : SynthesizedAnswer :=
  match call with
  | PyResult.exc _ =>
    ⟨construct_narrative facts query, ["Fallback due to LLM error"],
      mkRat 1 2⟩
  | PyResult.ok (SynthResponse.objParsed sa) => sa
  | PyResult.ok (SynthResponse.dictParsedObj sa) => sa
  | PyResult.ok (SynthResponse.dictParsedDict r) =>
    match r with
    | PyResult.ok sa => sa
    | PyResult.exc _ =>
      ⟨construct_narrative facts query, ["Fallback due to LLM error"],
        mkRat 1 2⟩
  | PyResult.ok SynthResponse.fallthrough =>
    ⟨construct_narrative facts query,
      ["Fallback due to LLM parsing failure"], mkRat 1 2⟩

/-- The fixed confidence report of the LLM-backed synthesis branch. -/
def llmConfidenceReport : String :=
  "## Confidence Report\n- Overall confidence: 0.8 (LLM-based synthesis)\n- Source credibility: 0.8\n- Consistency: 0.9\n- Completeness: 0.7"

/-- SynthesisEngine.synthesize_answer.  `llm` is `some call` when both a
completion client and a final-synthesis prompt are configured (the call
being the LLM behaviour), `none` otherwise. -/
def synthesize_answer (memory : WorkingMemory) (query : String)
    (llm : Option (PyResult SynthResponse)) : String :=
  let facts := memory.information_store.facts.map Prod.snd
  if facts.isEmpty then
    "Unable to synthesize an answer: No information was gathered."
  else
    let unique_facts := eliminate_redundancy facts
    match llm with
    | some call =>
      let synthesized_answer := perform_final_reasoning call unique_facts query
      let citations := generate_citations unique_facts
      let confidence_report := llmConfidenceReport
      let reasoning_section :=
        if synthesized_answer.reasoning_steps.isEmpty then ""
        else String.intercalate "\n" ("## Reasoning Steps" ::
          synthesized_answer.reasoning_steps.enum.map (fun p =>
            toString (p.1 + 1) ++ ". " ++ p.2))
      let parts := ["## Answer", synthesized_answer.answer] ++
        (if reasoning_section = "" then [] else [reasoning_section]) ++
        [confidence_report, citations]
      String.intercalate "\n\n" (parts.filter (fun part => part ≠ ""))
    | none =>
      let narrative := construct_narrative unique_facts query
      let citations := generate_citations unique_facts
      let confidence_data := calculate_confidence_score memory query
      let confidence_report := generate_confidence_report confidence_data
      "## Answer\n" ++ narrative ++ "\n\n" ++ confidence_report ++
        "\n\n" ++ citations

end Msa.Orchestration

namespace Msa.Tools

open Msa Msa.Memory

/-- class ToolResponse (tools/base.py); __init__ fills the timestamp with
datetime.now() when absent. -/
structure ToolResponse where
  tool_name : String
  response_data : List (String × JValue)
  metadata : List (String × JValue)
  raw_response : List (String × JValue)
  content : String
  timestamp : Option Rat

/-- ToolResponse(content=..., metadata=...) built at wall-clock `now`
with the remaining fields at their declared defaults. -/
def mkToolResponse (content : String) (metadata : List (String × JValue))
    (now : Rat) : ToolResponse :=
  ⟨"", [], metadata, [], content, some now⟩

end Msa.Tools

namespace Msa.Controller

open Msa Msa.Memory Msa.Orchestration

/-! Embedding of src/msa/controller/components.py and
observation_handler.py.  The LLM clients and tools are external
collaborators: each controller iteration consumes one `IterOracle`
describing what every consumed call would do (return which shape of
response, or raise). -/

/-- class ActionSelection (controller/models.py; pydantic bounds the
confidence to the interval 0..1). -/
structure ActionSelection where
  action_type : String
  action_name : String
  reasoning : String
  confidence : Rat
deriving DecidableEq, Repr

/-- class CompletionDecision (controller/models.py). -/
structure CompletionDecision where
  is_complete : Bool
  answer : String
  confidence : Rat
  reasoning : String
  remaining_tasks : List String
deriving DecidableEq, Repr

/-- The response shapes process_thoughts distinguishes: an object with a
content attribute, a dict, or anything else stringified. -/
inductive ThinkResponse where
  | contentAttr (content : String) : ThinkResponse
  | dictResp (d : List (String × JValue)) : ThinkResponse
  | otherResp (s : String) : ThinkResponse

/-- Python str() of a JSON-shaped value (composite reprs are abbreviated;
no claim inspects them). -/
def pyStr : JValue → String
  | JValue.str s => s
  | JValue.num q => Msa.Orchestration.pyFloatStr q
  | JValue.bool b => if b then "True" else "False"
  | JValue.null => "None"
  | JValue.arr _ => "list"
  | JValue.obj _ => "dict"

/-- The content-extraction branches at the end of process_thoughts. -/
def extractThought : ThinkResponse → String
  | ThinkResponse.contentAttr content => content
  | ThinkResponse.dictResp d =>
    match dget d "content" with
    | some v => pyStr v
    | none => pyStr (JValue.obj d)
  | ThinkResponse.otherResp s => s

/-- process_thoughts: summarizes memory, then calls the thinking client.
That call is NOT wrapped in try/except, so an exception from it
propagates to the caller. -/
def process_thoughts (mm : WorkingMemoryManager)
    (call : PyResult ThinkResponse) : PyResult String :=
  let _memory_summary := summarize_state mm
  match call with
  | PyResult.exc e => PyResult.exc e
  | PyResult.ok response => PyResult.ok (extractThought response)

/-- The response shapes process_completion_decision distinguishes; inner
`PyResult` values are the outcomes of the nested parse/construct steps,
which run inside the same try block. -/
inductive CompResponse where
  | dictParsedDecision (d : CompletionDecision) : CompResponse
  | dictParsedFields (r : PyResult CompletionDecision) : CompResponse
  | dictContent (r : PyResult CompletionDecision) : CompResponse
  | dictDirect (r : PyResult CompletionDecision) : CompResponse
  | objParsed (d : CompletionDecision) : CompResponse
  | objContent (r : PyResult CompletionDecision) : CompResponse
  | isDecision (d : CompletionDecision) : CompResponse
  | strParse (r : PyResult CompletionDecision) : CompResponse

/-- The fallback CompletionDecision built in the except branch of
process_completion_decision. -/
def completionFallback (e : String) : CompletionDecision :=
  ⟨false, "", 0, "Error in LLM completion check: " ++ e,
    ["Continue gathering information"]⟩

/-- process_completion_decision: every failure of the call or of the
response parsing is caught and becomes the fallback decision. -/
def process_completion_decision (call : PyResult CompResponse) :
    CompletionDecision :=
  match call with
  | PyResult.exc e => completionFallback e
  | PyResult.ok (CompResponse.dictParsedDecision d) => d
  | PyResult.ok (CompResponse.dictParsedFields r) =>
    match r with
    | PyResult.ok d => d
    | PyResult.exc e => completionFallback e
  | PyResult.ok (CompResponse.dictContent r) =>
    match r with
    | PyResult.ok d => d
    | PyResult.exc e => completionFallback e
  | PyResult.ok (CompResponse.dictDirect r) =>
    match r with
    | PyResult.ok d => d
    | PyResult.exc e => completionFallback e
  | PyResult.ok (CompResponse.objParsed d) => d
  | PyResult.ok (CompResponse.objContent r) =>
    match r with
    | PyResult.ok d => d
    | PyResult.exc e => completionFallback e
  | PyResult.ok (CompResponse.isDecision d) => d
  | PyResult.ok (CompResponse.strParse r) =>
    match r with
    | PyResult.ok d => d
    | PyResult.exc e => completionFallback e

/-- Outcome of the action client: a parsed ActionSelection or an
unparseable response. -/
inductive ActionResponse where
  | parsed (a : ActionSelection) : ActionResponse
  | unparseable (e : String) : ActionResponse

/-- The valid action types listed by the action prompt. -/
def validActionTypes : List String := ["tool", "plan", "ask", "stop"]

/-- Modelled from the spec: src/msa/controller/action_handler.py
(process_action_selection) is imported by the controller but absent from
the sources; per the spec section 4.1 an invalid or unparseable
action_type is normalized to a tool action on a default capability with
confidence 0.5 and an explanatory reasoning string, and (per its unit
tests) a raising LLM call is caught and produces the same fallback, so
the function never raises. -/
def process_action_selection (call : PyResult ActionResponse)
    (tools : List String) : ActionSelection :=
  let default_name := (tools.head?).getD ""
  match call with
  | PyResult.exc e =>
    ⟨"tool", default_name, "Error in LLM action selection: " ++ e,
      mkRat 1 2⟩
  | PyResult.ok (ActionResponse.unparseable e) =>
    ⟨"tool", default_name, "Error in LLM action selection: " ++ e,
      mkRat 1 2⟩
  | PyResult.ok (ActionResponse.parsed a) =>
    if a.action_type ∈ validActionTypes then a
    else ⟨"tool", a.action_name, a.reasoning, mkRat 1 2⟩

/-- handle_tool_execution (components.py): executes the named tool inside
try/except, returning an error ToolResponse for an unknown tool or a
raising execution. -/
def handle_tool_execution (tool_name : String) (_query : String)
    (tools : List String) (execOutcome : PyResult Msa.Tools.ToolResponse)
    (now : Rat) : Msa.Tools.ToolResponse :=
  if tool_name ∈ tools then
    match execOutcome with
    | PyResult.ok response => response
    | PyResult.exc e =>
      Msa.Tools.mkToolResponse
        ("Error executing tool \x27" ++ tool_name ++ "\x27: " ++ e)
        [("error", JValue.str e)] now
  else
    Msa.Tools.mkToolResponse
      ("Error: Tool \x27" ++ tool_name ++ "\x27 not found")
      [("error", JValue.str "tool_not_found")] now

/-- process_observation (observation_handler.py). -/
def process_observation (action_result : Msa.Tools.ToolResponse) : String :=
  "Observed: " ++ action_result.content

/-- Python truthiness of metadata.get("error"). -/
def jTruthy : Option JValue → Bool
  | none => false
  | some JValue.null => false
  | some (JValue.bool b) => b
  | some (JValue.num q) => decide (q ≠ 0)
  | some (JValue.str s) => decide (s ≠ "")
  | some (JValue.arr l) => !l.isEmpty
  | some (JValue.obj l) => !l.isEmpty

/-- Behaviour of every consumed external call during one controller
iteration: the thinking call, the action-selection call, the
completion-check call, the tool execution, the synthesis LLM call, and
the wall clock. -/
structure IterOracle where
  thinking : PyResult ThinkResponse
  action : PyResult ActionResponse
  completion : PyResult CompResponse
  toolExec : PyResult Msa.Tools.ToolResponse
  synthesis : PyResult SynthResponse
  now : Rat

/-- The tool registry built by initialize_tools. -/
def defaultTools : List String := ["web_search", "wikipedia"]

/-- The for-loop body and recursion of Controller.process_query
(remaining iterations first, then the running iteration index, memory
manager and consecutive-failure counter). -/
def processQueryLoop (tools : List String) (query : String)
    (oracle : Nat → IterOracle) :
    Nat → Nat → WorkingMemoryManager → Nat → PyResult String
  | 0, _, _, _ =>
    PyResult.ok "Reached maximum iterations without completing the task."
  | n + 1, i, mm, consecutive_tool_failures =>
    let o := oracle i
    match process_thoughts mm o.thinking with
    | PyResult.exc e => PyResult.exc e
    | PyResult.ok _thought =>
      let action_selection := process_action_selection o.action tools
      let completion := process_completion_decision o.completion
      if completion.is_complete then
        PyResult.ok (synthesize_answer mm.memory query (some o.synthesis))
      else if action_selection.action_type = "tool" then
        let tool_response := handle_tool_execution
          action_selection.action_name query tools o.toolExec o.now
        let observation := process_observation tool_response
        let mm2 := add_observation mm o.now
          ⟨some observation, some action_selection.action_name,
            some action_selection.confidence, none⟩
        if jTruthy (dget tool_response.metadata "error") then
          if consecutive_tool_failures + 1 ≥ 3 then
            PyResult.ok "Unable to complete task due to repeated tool failures."
          else
            processQueryLoop tools query oracle n (i + 1) mm2
              (consecutive_tool_failures + 1)
        else processQueryLoop tools query oracle n (i + 1) mm2 0
      else if action_selection.action_type = "stop" then
        let facts := mm.memory.information_store.facts
        if facts.isEmpty then
          PyResult.ok "Unable to determine next action."
        else if facts.all
            (fun p => strIn "Error executing tool" p.2.content) then
          PyResult.ok "Unable to complete task due to tool failures."
        else
          PyResult.ok (synthesize_answer mm.memory query (some o.synthesis))
      else PyResult.ok "Unable to determine next action."

/-- Controller.process_query: fresh working memory at wall-clock t0, then
up to max_iterations think/act/check/observe rounds. -/
def process_query (max_iterations : Nat) (tools : List String)
    (query : String) (t0 : Rat) (oracle : Nat → IterOracle) :
    PyResult String :=
  processQueryLoop tools query oracle max_iterations 0
    (managerInit query t0) 0

end Msa.Controller

namespace Msa.Memory

open Msa

/-- An observation with fixed content and source and the given
confidence (such as the controller feeds from one tool step). -/
def obsWithConf (c : Rat) : Observation :=
  ⟨some "f", some "s", some c, none⟩

/-- Confidence of the i-th of 150 add_observation calls in the pruning
scenario: call 1 carries 0.5, calls 2 to 101 carry 1.0, calls 102 to 150
carry 0.0; all calls share wall-clock time 0. -/
def c2Conf (i : Nat) : Rat :=
  if i = 1 then mkRat 1 2 else if i ≤ 101 then 1 else 0

/-- The store after the 150 add_observation calls of the pruning
scenario (max_facts is 100 from __init__). -/
def c2Run : WorkingMemoryManager :=
  (List.range 150).foldl
    (fun mm i => add_observation mm 0 (obsWithConf (c2Conf (i + 1))))
    (managerInit "q" 0)

/-- Confidence of the i-th call in the id-reuse scenario: call 1 carries
0.0, all later calls carry 1.0. -/
def c4Conf (i : Nat) : Rat := if i = 1 then 0 else 1

/-- The store after 101 add_observation calls of the id-reuse scenario
(the 101st triggers pruning, which removes fact_1). -/
def c4Run101 : WorkingMemoryManager :=
  (List.range 101).foldl
    (fun mm i => add_observation mm 0 (obsWithConf (c4Conf (i + 1))))
    (managerInit "q" 0)

/-- The fact id that the next add_observation call computes for a given
store (add_observation line 110). -/
def nextFactId (mm : WorkingMemoryManager) : String :=
  "fact_" ++ toString (mm.memory.information_store.facts.length + 1)

end Msa.Memory

namespace Msa.Memory

open Msa

/-- One public mutating operation of WorkingMemoryManager, with the wall
clock it runs at. -/
inductive MemOp where
  | add (now : Rat) (obs : Observation) : MemOp
  | update (now : Rat) : MemOp
  | prune (now : Rat) : MemOp

/-- Run one operation. -/
def applyMemOp (mm : WorkingMemoryManager) : MemOp → WorkingMemoryManager
  | MemOp.add now obs => add_observation mm now obs
  | MemOp.update now => update_confidence_scores mm now
  | MemOp.prune now => prune_memory mm now

/-- Run a sequence of operations. -/
def applyMemOps (mm : WorkingMemoryManager) (ops : List MemOp) :
    WorkingMemoryManager :=
  ops.foldl applyMemOp mm

/-- Whether the arguments of an operation stay in the documented ranges:
the confidence and source credibility of an added observation (after the dict-get
defaults) lie in the unit interval. -/
def validMemOp : MemOp → Bool
  | MemOp.add _ obs =>
    decide (0 ≤ obs.confidence.getD 0) &&
    decide (obs.confidence.getD 0 ≤ 1) &&
    decide (0 ≤ obs.source_credibility.getD (mkRat 1 2)) &&
    decide (obs.source_credibility.getD (mkRat 1 2) ≤ 1)
  | MemOp.update _ => true
  | MemOp.prune _ => true

/-- The confidence invariant: the confidence of every stored fact and
the credibility of every stored source lie in the unit interval. -/
def ConfInvariant (mm : WorkingMemoryManager) : Prop :=
  (∀ p ∈ mm.memory.information_store.facts,
    0 ≤ p.2.confidence ∧ p.2.confidence ≤ 1) ∧
  (∀ p ∈ mm.memory.information_store.sources,
    0 ≤ p.2.credibility ∧ p.2.credibility ≤ 1)

/-- A small in-range operation sequence. -/
def c3Ops : List MemOp :=
  [MemOp.add 0 (obsWithConf (mkRat 1 2)), MemOp.update 1, MemOp.prune 2]

end Msa.Memory

namespace Msa.Orchestration

open Msa Msa.Memory

/-- The round-Earth fact as stored by add_observation (first call, time
0, confidence 0.9, source wikipedia). -/
def c8fact1 : Fact :=
  ⟨"fact_1", "The Earth is round", "wikipedia", 0, mkRat 9 10⟩

/-- The flat-Earth fact as stored by add_observation (second call, time
1, confidence 0.3, source web_search). -/
def c8fact2 : Fact :=
  ⟨"fact_2", "The Earth is flat", "web_search", 1, mkRat 3 10⟩

/-- A store holding exactly the round-Earth and flat-Earth facts. -/
def c8Memory : WorkingMemory :=
  (add_observation
    (add_observation (managerInit "Is the Earth round?" 0) 0
      ⟨some "The Earth is round", some "wikipedia", some (mkRat 9 10),
        none⟩)
    1
    ⟨some "The Earth is flat", some "web_search", some (mkRat 3 10),
      none⟩).memory

/-- An investigation of a conflicting pair with equal confidences. -/
def c8TieInv : Investigation :=
  ⟨⟨⟨"fact_1", "The sky is blue is true", "a", 0, mkRat 1 2⟩,
    ⟨"fact_2", "The sky is blue is false", "b", 1, mkRat 1 2⟩,
    "contradiction", "tie"⟩,
   "Investigation would use additional tools to gather context",
   ["a", "b"]⟩

end Msa.Orchestration

namespace Msa.Memory

open Msa

/-- A store with two facts at distinct timestamps (reachable by two
add_observation calls; relationships still empty). -/
def c6Base : WorkingMemoryManager :=
  add_observation
    (add_observation (managerInit "q" 0) 0
      ⟨some "a", some "s1", some 1, none⟩)
    1 ⟨some "b", some "s2", some 1, none⟩

/-- The same store after infer_relationships has populated the
relationships dict with a raw temporal dict. -/
def c6Mgr : WorkingMemoryManager :=
  infer_relationships c6Base

end Msa.Memory

namespace Msa.Controller

open Msa Msa.Memory Msa.Orchestration

/-- A benign completion decision that is not complete. -/
def incompleteDecision : CompletionDecision :=
  ⟨false, "", 0, "keep going", []⟩

/-- An iteration oracle whose thinking call raises, while every other
consumed call behaves normally. -/
def c1BoomOracle : Nat → IterOracle := fun _ =>
  ⟨PyResult.exc "boom",
   PyResult.ok (ActionResponse.parsed ⟨"stop", "", "r", mkRat 1 2⟩),
   PyResult.ok (CompResponse.isDecision incompleteDecision),
   PyResult.ok (Msa.Tools.mkToolResponse "c" [] 0),
   PyResult.ok SynthResponse.fallthrough, 0⟩

/-- An iteration oracle in which every consumed call behaves normally
and the selected action is stop. -/
def c1CalmOracle : Nat → IterOracle := fun _ =>
  ⟨PyResult.ok (ThinkResponse.contentAttr "thinking"),
   PyResult.ok (ActionResponse.parsed ⟨"stop", "", "r", mkRat 1 2⟩),
   PyResult.ok (CompResponse.isDecision incompleteDecision),
   PyResult.ok (Msa.Tools.mkToolResponse "c" [] 0),
   PyResult.ok SynthResponse.fallthrough, 0⟩

end Msa.Controller

namespace Msa.CircuitTool

/-- One wrapped call that fails with a generic error, keeping only the
breaker bookkeeping (used to phrase consecutive-failure scenarios). -/
def failStep (cfg : CircuitBreakerConfig) (cb : CircuitBreaker)
    (t : Rat) : CircuitBreaker :=
  (execute_with_circuit_breaker cfg cb t (PyResult.exc "boom" : PyResult Unit)).breaker

/-- C5: with failure_threshold 3, three consecutive wrapped-call failures
from a fresh breaker leave it OPEN with the third failure time recorded; a
further call strictly before the timeout raises the circuit-open error
without invoking the wrapped function and leaves the breaker unchanged;
once the timeout has elapsed the gate transitions the breaker to
HALF_OPEN and the next call does invoke the wrapped function; and
whenever the gate lets a call through, a failing wrapped call re-raises
its own underlying error. -/
theorem circuitBreaker_threshold3_open_timeout_halfopen_reraise
    {α : Type} (T : Rat) (half : Nat) (t1 t2 t3 t4 : Rat)
    (fn : PyResult α) (e4 : String)
    (hcb3 : failStep ⟨3, T, half⟩
      (failStep ⟨3, T, half⟩ (failStep ⟨3, T, half⟩ CircuitBreaker.init t1) t2)
      t3 = cb3) :
    (cb3.state = CircuitState.OPEN ∧
      cb3.last_failure_time = some t3 ∧ cb3.failure_count = 3) ∧
    (t4 - t3 < T →
      execute_with_circuit_breaker ⟨3, T, half⟩ cb3 t4 fn =
        ⟨PyResult.exc "Circuit breaker is OPEN", cb3, false⟩) ∧
    (T ≤ t4 - t3 →
      circuit_gate ⟨3, T, half⟩ cb3 t4 =
        PyResult.ok (transition_to_half_open cb3) ∧
      (transition_to_half_open cb3).state = CircuitState.HALF_OPEN ∧
      (execute_with_circuit_breaker ⟨3, T, half⟩ cb3 t4 fn).invoked = true) ∧
    (∀ (cfg2 : CircuitBreakerConfig) (cb : CircuitBreaker) (now : Rat),
      (circuit_gate cfg2 cb now).isOk = true →
      (execute_with_circuit_breaker cfg2 cb now
        (PyResult.exc e4 : PyResult α)).result = PyResult.exc e4) := by
  have hcb3v : cb3 = ⟨CircuitState.OPEN, 3, some t3, 0⟩ := by
    rw [← hcb3]
    simp [failStep, execute_with_circuit_breaker, circuit_gate,
      CircuitBreaker.init, on_failure, trip, should_attempt_reset]
  subst hcb3v
  refine ⟨⟨rfl, rfl, rfl⟩, ?_, ?_, ?_⟩
  · intro hlt
    have hnot : ¬ (T ≤ t4 - t3) := not_le.mpr hlt
    simp [execute_with_circuit_breaker, circuit_gate,
      should_attempt_reset, hnot]
  · intro hge
    have hres : should_attempt_reset ⟨3, T, half⟩
        ⟨CircuitState.OPEN, 3, some t3, 0⟩ t4 = true := by
      simp [should_attempt_reset]
      exact hge
    constructor
    · simp [circuit_gate, hres]
    · constructor
      · rfl
      · cases fn with
        | ok v =>
          simp [execute_with_circuit_breaker, circuit_gate, hres]
        | exc e =>
          simp [execute_with_circuit_breaker, circuit_gate, hres]
  · intro cfg2 cb now hok
    unfold execute_with_circuit_breaker
    cases hg : circuit_gate cfg2 cb now with
    | ok cb1 => simp
    | exc e =>
      rw [hg] at hok
      simp [PyResult.isOk] at hok

end Msa.CircuitTool

namespace Msa.CircuitTool

/-- Witness for C5: three failures at times 0, 1, 2 trip the breaker from
threshold 3, and a call at time 30 (before the 60-second timeout) is
rejected without invoking the wrapped function. -/
theorem circuitBreaker_threshold3_witness :
    ((failStep ⟨3, 60, 3⟩
        (failStep ⟨3, 60, 3⟩ (failStep ⟨3, 60, 3⟩ CircuitBreaker.init 0) 1)
        2).state = CircuitState.OPEN) ∧
    (execute_with_circuit_breaker ⟨3, 60, 3⟩
        (failStep ⟨3, 60, 3⟩
          (failStep ⟨3, 60, 3⟩ (failStep ⟨3, 60, 3⟩ CircuitBreaker.init 0) 1)
          2) 30 (PyResult.ok (42 : Nat))).invoked = false := by
  have h := circuitBreaker_threshold3_open_timeout_halfopen_reraise
    (α := Nat) 60 3 0 1 2 30 (PyResult.ok 42) "b" rfl
  refine ⟨h.1.1, ?_⟩
  have h2 := h.2.1 (by norm_num)
  rw [h2]

end Msa.CircuitTool

namespace Msa.RateTool

open Msa

/-- C10: with requests_per_second 0 and an empty bucket (capacity 0), the
first throttled loop iteration of queue_request evaluates 1.0 divided by
the rate and raises ZeroDivisionError; with a positive rate the division
never raises, so queue_request either exhausts its clock fuel or returns
the own outcome of the queued call. -/
theorem rateLimiter_queue_request_zero_rate_divides_by_zero
    {α : Type} :
    (queue_request (⟨0, 0, true⟩ : RateLimitConfig) RateLimiter.init
        "api" [0] (PyResult.ok "r") =
      some (PyResult.exc "ZeroDivisionError",
        ⟨[("api", 0)], [("api", 0)], [("api", (0, 1))]⟩)) ∧
    (∀ (cfg : RateLimitConfig), 0 < cfg.requests_per_second →
      ∀ (rl : RateLimiter) (endpoint : String) (times : List Rat)
        (fn : PyResult α),
        queue_request cfg rl endpoint times fn = none ∨
        ∃ rl2, queue_request cfg rl endpoint times fn = some (fn, rl2)) := by
  constructor
  · decide
  · intro cfg hpos rl endpoint times fn
    induction times generalizing rl with
    | nil => exact Or.inl rfl
    | cons now rest ih =>
      unfold queue_request
      cases hc : consume_token cfg rl endpoint now with
      | mk granted rl1 =>
        cases granted with
        | true => exact Or.inr ⟨rl1, rfl⟩
        | false =>
          have hne : cfg.requests_per_second ≠ 0 := ne_of_gt hpos
          simp only [pyDiv, hne, if_false]
          exact ih rl1

/-- Witness for C10: the positive-rate half applied at rate 1, a fresh
limiter and a single attempt, where the queued call goes through. -/
theorem rateLimiter_queue_request_witness :
    (0 : Rat) < 1 ∧
    (queue_request (⟨1, 1, true⟩ : RateLimitConfig) RateLimiter.init
        "api" [0] (PyResult.ok "r") = none ∨
      ∃ rl2, queue_request (⟨1, 1, true⟩ : RateLimitConfig)
        RateLimiter.init "api" [0] (PyResult.ok "r") = some
          (PyResult.ok "r", rl2)) := by
  refine ⟨by norm_num, ?_⟩
  exact (rateLimiter_queue_request_zero_rate_divides_by_zero
    (α := String)).2 ⟨1, 1, true⟩ (by norm_num) RateLimiter.init "api"
    [0] (PyResult.ok "r")

end Msa.RateTool

namespace Msa.Memory

set_option maxRecDepth 1000000 in
set_option maxHeartbeats 16000000 in
/-- C2, evaluation at the failing input: after 150 add_observation calls
(confidences 0.5, then a hundred 1.0, then forty-nine 0.0, all at time 0)
the store indeed holds exactly 100 facts, but the retained fact_101
carries confidence 0 while fact_1, removed by pruning, carried 0.5, so a
retained fact scores strictly below a removed one: add_observation reuses
the id fact_101 after pruning (the id is derived from the current fact
count) and silently overwrites the high-scoring fact stored under it. -/
theorem prune_scenario_retained_fact_scores_below_removed :
    c2Run.memory.information_store.facts.length = 100 ∧
    dget c2Run.memory.information_store.facts "fact_101" =
      some ⟨"fact_101", "f", "s", 0, 0⟩ ∧
    dget c2Run.memory.information_store.facts "fact_1" = none ∧
    combinedScore ⟨"fact_101", "f", "s", 0, 0⟩ 0 <
      combinedScore ⟨"fact_1", "f", "s", 0, mkRat 1 2⟩ 0 ∧
    combinedScore ⟨"fact_101", "f", "s", 0, 0⟩ 0 <
      combinedScore ⟨"fact_101", "f", "s", 0, 1⟩ 0 := by
  decide

set_option maxRecDepth 1000000 in
set_option maxHeartbeats 16000000 in
/-- C4, evaluation at the failing input: after 101 add_observation calls
(the first with confidence 0, the rest 1) pruning has removed fact_1, the
store holds 100 facts including fact_101, and the id computed for the
next call is again fact_101 — not fresh; performing that call overwrites
the stored fact_101 (confidence drops from 1 to 0) and leaves the count
at 100. -/
theorem add_observation_reuses_id_after_prune :
    c4Run101.memory.information_store.facts.length = 100 ∧
    nextFactId c4Run101 = "fact_101" ∧
    dget c4Run101.memory.information_store.facts "fact_101" =
      some ⟨"fact_101", "f", "s", 0, 1⟩ ∧
    (add_observation c4Run101 0 (obsWithConf 0)
        ).memory.information_store.facts.length = 100 ∧
    dget (add_observation c4Run101 0 (obsWithConf 0)
        ).memory.information_store.facts "fact_101" =
      some ⟨"fact_101", "f", "s", 0, 0⟩ := by
  decide

end Msa.Memory

namespace Msa

/-- rAdd agrees with rational addition. -/
theorem rAdd_eq (a b : Rat) : rAdd a b = a + b := by
  rw [rAdd, Rat.mkRat_eq_divInt, Rat.divInt_eq_div]
  have ha : ((a.den : ℚ)) ≠ 0 := by
    exact_mod_cast a.den_nz
  have hb : ((b.den : ℚ)) ≠ 0 := by
    exact_mod_cast b.den_nz
  conv_rhs => rw [← Rat.num_div_den a, ← Rat.num_div_den b]
  push_cast
  field_simp

/-- rSub agrees with rational subtraction. -/
theorem rSub_eq (a b : Rat) : rSub a b = a - b := by
  rw [rSub, Rat.mkRat_eq_divInt, Rat.divInt_eq_div]
  have ha : ((a.den : ℚ)) ≠ 0 := by
    exact_mod_cast a.den_nz
  have hb : ((b.den : ℚ)) ≠ 0 := by
    exact_mod_cast b.den_nz
  conv_rhs => rw [← Rat.num_div_den a, ← Rat.num_div_den b]
  push_cast
  field_simp
  ring

/-- rMul agrees with rational multiplication. -/
theorem rMul_eq (a b : Rat) : rMul a b = a * b := by
  rw [rMul, Rat.mkRat_eq_divInt, Rat.divInt_eq_div]
  have ha : ((a.den : ℚ)) ≠ 0 := by
    exact_mod_cast a.den_nz
  have hb : ((b.den : ℚ)) ≠ 0 := by
    exact_mod_cast b.den_nz
  conv_rhs => rw [← Rat.num_div_den a, ← Rat.num_div_den b]
  push_cast
  field_simp

/-- rDiv agrees with rational division for a nonzero divisor. -/
theorem rDiv_eq (a b : Rat) (hb : b ≠ 0) : rDiv a b = a / b := by
  rw [rDiv, Rat.divInt_eq_div]
  have ha : ((a.den : ℚ)) ≠ 0 := by
    exact_mod_cast a.den_nz
  have hbd : ((b.den : ℚ)) ≠ 0 := by
    exact_mod_cast b.den_nz
  have hbn : ((b.num : ℚ)) ≠ 0 := by
    exact_mod_cast Rat.num_ne_zero.mpr hb
  conv_rhs => rw [← Rat.num_div_den a, ← Rat.num_div_den b]
  push_cast
  field_simp

/-- Members of a dict after an assignment either carry the new value or
were already present. -/
theorem mem_dset {α : Type} {d : List (String × α)} {k : String} {v : α}
    {p : String × α} (h : p ∈ dset d k v) : p.2 = v ∨ p ∈ d := by
  induction d with
  | nil =>
    simp [dset] at h
    subst h
    exact Or.inl rfl
  | cons hd tl ih =>
    rw [dset] at h
    by_cases hk : hd.1 = k
    · simp [hk] at h
      rcases h with h | h
      · subst h
        exact Or.inl rfl
      · exact Or.inr (List.mem_cons_of_mem _ h)
    · simp [hk] at h
      rcases h with h | h
      · subst h
        exact Or.inr (List.mem_cons_self _ _)
      · rcases ih h with h2 | h2
        · exact Or.inl h2
        · exact Or.inr (List.mem_cons_of_mem _ h2)

/-- Members of a dict after a deletion were present before. -/
theorem mem_ddel {α : Type} {d : List (String × α)} {k : String}
    {p : String × α} (h : p ∈ ddel d k) : p ∈ d := by
  induction d with
  | nil =>
    simp [ddel] at h
  | cons hd tl ih =>
    rw [ddel] at h
    by_cases hk : hd.1 = k
    · simp [hk] at h
      exact List.mem_cons_of_mem _ h
    · simp [hk] at h
      rcases h with h | h
      · subst h
        exact List.mem_cons_self _ _
      · exact List.mem_cons_of_mem _ (ih h)

/-- Members of a dict after a sequence of deletions were present
before. -/
theorem mem_foldl_ddel {α : Type} {ks : List String}
    {d : List (String × α)} {p : String × α}
    (h : p ∈ ks.foldl (fun d k => ddel d k) d) : p ∈ d := by
  induction ks generalizing d with
  | nil => exact h
  | cons k ks ih => exact mem_ddel (ih h)

/-- A successful dict lookup is a membership. -/
theorem dget_mem {α : Type} {d : List (String × α)} {k : String} {v : α}
    (h : dget d k = some v) : (k, v) ∈ d := by
  induction d with
  | nil => simp [dget] at h
  | cons hd tl ih =>
    rw [dget] at h
    by_cases hk : hd.1 = k
    · simp [hk] at h
      have : hd = (k, v) := by
        cases hd
        simp at hk
        simp at h
        simp [hk, h]
      rw [← this]
      exact List.mem_cons_self _ _
    · simp [hk] at h
      exact List.mem_cons_of_mem _ (ih h)

/-- The average of two unit-interval rationals, as the code computes it,
stays in the unit interval. -/
theorem avg_in_unit {a b : Rat} (ha0 : 0 ≤ a) (ha1 : a ≤ 1) (hb0 : 0 ≤ b)
    (hb1 : b ≤ 1) : 0 ≤ rDiv (rAdd a b) 2 ∧ rDiv (rAdd a b) 2 ≤ 1 := by
  rw [rAdd_eq, rDiv_eq _ _ (by norm_num)]
  constructor
  · positivity
  · rw [div_le_one (by norm_num)]
    linarith

end Msa

namespace Msa.Memory

open Msa

/-- prune_memory only deletes entries, so it preserves the confidence
invariant. -/
theorem confInvariant_prune {mm : WorkingMemoryManager} (now : Rat)
    (h : ConfInvariant mm) : ConfInvariant (prune_memory mm now) := by
  unfold prune_memory
  dsimp only
  split
  · exact h
  · refine ⟨?_, ?_⟩
    · intro p hp
      simp only at hp
      exact h.1 p (mem_foldl_ddel hp)
    · intro p hp
      exact h.2 p hp

/-- add_observation with in-range arguments preserves the confidence
invariant. -/
theorem confInvariant_add {mm : WorkingMemoryManager} (now : Rat)
    (obs : Observation)
    (hc0 : 0 ≤ obs.confidence.getD 0) (hc1 : obs.confidence.getD 0 ≤ 1)
    (hs0 : 0 ≤ obs.source_credibility.getD (mkRat 1 2))
    (hs1 : obs.source_credibility.getD (mkRat 1 2) ≤ 1)
    (h : ConfInvariant mm) : ConfInvariant (add_observation mm now obs) := by
  unfold add_observation
  dsimp only
  have hmid : ConfInvariant
      { mm with
        memory :=
          { mm.memory with
            information_store :=
              { mm.memory.information_store with
                facts := dset mm.memory.information_store.facts
                  ("fact_" ++
                    toString (mm.memory.information_store.facts.length + 1))
                  { id := "fact_" ++
                      toString (mm.memory.information_store.facts.length + 1)
                    content := obs.content.getD ""
                    source := obs.source.getD "unknown"
                    timestamp := now
                    confidence := obs.confidence.getD 0 }
                confidence_scores :=
                  dset mm.memory.information_store.confidence_scores
                    ("fact_" ++
                      toString
                        (mm.memory.information_store.facts.length + 1))
                    (obs.confidence.getD 0)
                sources :=
                  if (dget mm.memory.information_store.sources
                      (obs.source.getD "unknown")).isNone then
                    dset mm.memory.information_store.sources
                      (obs.source.getD "unknown")
                      { id := obs.source.getD "unknown"
                        url := none
                        credibility :=
                          obs.source_credibility.getD (mkRat 1 2)
                        retrieval_date := now }
                  else mm.memory.information_store.sources }
            updated_at := now } } := by
    refine ⟨?_, ?_⟩
    · intro p hp
      simp only at hp
      rcases mem_dset hp with h2 | h2
      · rw [h2]
        exact ⟨hc0, hc1⟩
      · exact h.1 p h2
    · intro p hp
      simp only at hp
      split at hp
      · rcases mem_dset hp with h2 | h2
        · rw [h2]
          exact ⟨hs0, hs1⟩
        · exact h.2 p h2
      · exact h.2 p hp
  split
  · exact confInvariant_prune now hmid
  · exact hmid

/-- update_confidence_scores preserves the confidence invariant. -/
theorem confInvariant_update {mm : WorkingMemoryManager} (now : Rat)
    (h : ConfInvariant mm) :
    ConfInvariant (update_confidence_scores mm now) := by
  unfold update_confidence_scores
  dsimp only
  refine ⟨?_, ?_⟩
  · intro p hp
    simp only [List.mem_map] at hp
    obtain ⟨q, hq, hpq⟩ := hp
    rcases hsrc : dget mm.memory.information_store.sources q.2.source with
      _ | s
    · rw [hsrc] at hpq
      simp at hpq
      rw [← hpq]
      exact h.1 q hq
    · rw [hsrc] at hpq
      simp at hpq
      have hf := h.1 q hq
      have hs := h.2 (q.2.source, s) (dget_mem hsrc)
      have havg := avg_in_unit hf.1 hf.2 hs.1 hs.2
      rw [← hpq]
      simpa using havg
  · intro p hp
    exact h.2 p hp

/-- A valid operation preserves the confidence invariant. -/
theorem confInvariant_step {mm : WorkingMemoryManager} {op : MemOp}
    (hop : validMemOp op = true) (h : ConfInvariant mm) :
    ConfInvariant (applyMemOp mm op) := by
  cases op with
  | add now obs =>
    simp only [validMemOp, Bool.and_eq_true, decide_eq_true_eq] at hop
    exact confInvariant_add now obs hop.1.1.1 hop.1.1.2 hop.1.2 hop.2 h
  | update now => exact confInvariant_update now h
  | prune now => exact confInvariant_prune now h

/-- A valid operation sequence preserves the confidence invariant. -/
theorem confInvariant_steps {mm : WorkingMemoryManager} {ops : List MemOp}
    (hops : ∀ op ∈ ops, validMemOp op = true) (h : ConfInvariant mm) :
    ConfInvariant (applyMemOps mm ops) := by
  induction ops generalizing mm with
  | nil => exact h
  | cons op ops ih =>
    exact ih (fun o ho => hops o (List.mem_cons_of_mem _ ho))
      (confInvariant_step (hops op (List.mem_cons_self _ _)) h)

/-- C3 counterexample: add_observation accepts an observation whose
confidence is 2 and stores a fact with confidence 2, outside the unit
interval, so the invariant does not hold for all accepted argument
values. -/
theorem add_observation_accepts_out_of_range_confidence :
    (dget (add_observation (managerInit "q" 0) 0
        ⟨some "f", some "s", some 2, none⟩
      ).memory.information_store.facts "fact_1").map Fact.confidence =
      some 2 ∧
    ¬ ((2 : Rat) ≤ 1) := by
  refine ⟨by decide, by norm_num⟩

/-- C3 amended: starting from a fresh store, after any sequence of
add_observation / update_confidence_scores / prune_memory calls whose
supplied confidences and source credibilities lie in the unit interval,
the confidence of every stored fact lies in the unit interval. -/
theorem confidence_in_unit_interval_for_in_range_args
    (q : String) (t0 : Rat) (ops : List MemOp)
    (hops : ∀ op ∈ ops, validMemOp op = true) :
    ∀ p ∈ (applyMemOps (managerInit q t0) ops
      ).memory.information_store.facts,
      0 ≤ p.2.confidence ∧ p.2.confidence ≤ 1 := by
  have hinit : ConfInvariant (managerInit q t0) := by
    refine ⟨?_, ?_⟩
    · intro p hp
      simp [managerInit] at hp
    · intro p hp
      simp [managerInit] at hp
  exact (confInvariant_steps hops hinit).1

/-- Witness for the amended C3 at a three-operation sequence. -/
theorem confidence_in_unit_interval_witness :
    (∀ op ∈ c3Ops, validMemOp op = true) ∧
    (∀ p ∈ (applyMemOps (managerInit "q" 0) c3Ops
      ).memory.information_store.facts,
      0 ≤ p.2.confidence ∧ p.2.confidence ≤ 1) :=
  ⟨by decide, confidence_in_unit_interval_for_in_range_args "q" 0 c3Ops
    (by decide)⟩

end Msa.Memory

namespace Msa.Orchestration

open Msa Msa.Memory

/-- C9: on a store with zero facts, the confidence scorer returns all
five scores equal to zero, the synthesis engine returns the fixed
no-information message (whatever the LLM configuration), and the conflict
detector returns the empty list. -/
theorem zero_facts_zero_scores_fixed_message_no_conflicts
    (memory : WorkingMemory) (query : String)
    (llm : Option (PyResult SynthResponse))
    (h : memory.information_store.facts = []) :
    calculate_confidence_score memory query = ⟨0, 0, 0, 0, 0⟩ ∧
    synthesize_answer memory query llm =
      "Unable to synthesize an answer: No information was gathered." ∧
    detect_conflicts memory = [] := by
  refine ⟨?_, ?_, ?_⟩
  · rw [calculate_confidence_score, h]
    simp
  · rw [synthesize_answer, h]
    simp
  · rw [detect_conflicts, h]
    rfl

/-- Witness for C9 at the store of a fresh manager. -/
theorem zero_facts_boundary_witness :
    (managerInit "q" 0).memory.information_store.facts = [] ∧
    calculate_confidence_score (managerInit "q" 0).memory "q" =
      ⟨0, 0, 0, 0, 0⟩ ∧
    synthesize_answer (managerInit "q" 0).memory "q" none =
      "Unable to synthesize an answer: No information was gathered." ∧
    detect_conflicts (managerInit "q" 0).memory = [] := by
  refine ⟨rfl, ?_⟩
  exact zero_facts_zero_scores_fixed_message_no_conflicts
    (managerInit "q" 0).memory "q" none rfl

end Msa.Orchestration

namespace Msa.Orchestration

open Msa Msa.Memory

/-- C8: on the store holding exactly the round-Earth fact (confidence
0.9) and the flat-Earth fact (confidence 0.3), detect_conflicts returns
exactly one conflict; the detect-investigate-resolve pipeline prefers the
round-Earth fact with a reasoning string citing both confidence values;
and for any conflicting pair with equal confidences the resolution keeps
the first-encountered fact. -/
theorem earth_conflict_detected_and_resolved_by_confidence :
    detect_conflicts c8Memory =
      [⟨c8fact1, c8fact2, "contradiction",
        "Contradiction between \x27The Earth is round\x27 and \x27The Earth is flat\x27"⟩] ∧
    resolve_conflicts
        (investigate_conflicts (detect_conflicts c8Memory) c8Memory)
        c8Memory =
      [⟨c8fact1, c8fact2,
        "Fact 1 has higher confidence (0.9) than Fact 2 (0.3)"⟩] ∧
    (∀ (m : WorkingMemory) (inv : Investigation),
      inv.conflict.fact1.confidence = inv.conflict.fact2.confidence →
      resolve_conflicts [inv] m =
        [⟨inv.conflict.fact1, inv.conflict.fact2,
          "Facts have equal confidence, keeping first encountered"⟩]) := by
  refine ⟨by decide, by decide, ?_⟩
  intro m inv h
  rw [resolve_conflicts]
  simp only [List.map]
  rw [resolveOne, h]
  simp

/-- Witness for C8: the tie rule applied to a concrete equal-confidence
conflicting pair. -/
theorem earth_conflict_tie_witness :
    c8TieInv.conflict.fact1.confidence =
      c8TieInv.conflict.fact2.confidence ∧
    resolve_conflicts [c8TieInv] c8Memory =
      [⟨c8TieInv.conflict.fact1, c8TieInv.conflict.fact2,
        "Facts have equal confidence, keeping first encountered"⟩] :=
  ⟨rfl, earth_conflict_detected_and_resolved_by_confidence.2.2 c8Memory
    c8TieInv rfl⟩

end Msa.Orchestration

namespace Msa.Memory

open Msa

/-- Binding a successful Except value applies the continuation. -/
theorem exBind_ok {α β : Type} (a : α) (f : α → Except String β) :
    (Except.ok a : Except String α) >>= f = f a := rfl

/-- Pointwise-inverted validators invert dumped lists. -/
theorem exListMapM_dump {β : Type} (v : JValue → Except String β)
    (g : β → JValue) (hv : ∀ b, v (g b) = Except.ok b) (l : List β) :
    exListMapM v (l.map g) = Except.ok l := by
  induction l with
  | nil => rfl
  | cons b t ih =>
    simp only [List.map, exListMapM, hv, ih]

/-- Pointwise-inverted validators invert dumped arrays. -/
theorem jArrOf_dump {β : Type} (v : JValue → Except String β)
    (g : β → JValue) (hv : ∀ b, v (g b) = Except.ok b) (l : List β) :
    jArrOf v (JValue.arr (l.map g)) = Except.ok l := by
  simp only [jArrOf]
  exact exListMapM_dump v g hv l

/-- Pointwise-inverted validators invert dumped key-value objects. -/
theorem jObjOf_dump {β : Type} (v : JValue → Except String β)
    (g : β → JValue) (hv : ∀ b, v (g b) = Except.ok b)
    (l : List (String × β)) :
    jObjOf v (JValue.obj (l.map (fun p => (p.1, g p.2)))) =
      Except.ok l := by
  simp only [jObjOf]
  induction l with
  | nil => rfl
  | cons b t ih =>
    simp only [List.map, exListMapM]
    rw [ih, hv]
    rfl

/-- Fact dump/validate round-trip. -/
theorem validateFact_dump (f : Fact) :
    validateFact (dumpFact f) = Except.ok f := rfl

/-- Relationship dump/validate round-trip for model entries. -/
theorem validateRelationship_dump (r : Relationship) :
    validateRelationship (dumpRelEntry (RelEntry.model r)) =
      Except.ok (RelEntry.model r) := rfl

/-- SourceMetadata dump/validate round-trip. -/
theorem validateSourceMetadata_dump (s : SourceMetadata) :
    validateSourceMetadata (dumpSourceMetadata s) = Except.ok s := by
  cases s with
  | mk id url credibility retrieval_date =>
    cases url with
    | none => rfl
    | some u => rfl

/-- QueryRefinement dump/validate round-trip. -/
theorem validateQueryRefinement_dump (q : QueryRefinement) :
    validateQueryRefinement (dumpQueryRefinement q) = Except.ok q := rfl

/-- QueryState dump/validate round-trip. -/
theorem validateQueryState_dump (q : QueryState) :
    validateQueryState (dumpQueryState q) = Except.ok q := by
  simp only [validateQueryState, dumpQueryState, jAnyObj, jField, dget,
    String.reduceEq, reduceIte, jStr, exBind_ok,
    jArrOf_dump jStr JValue.str (fun b => rfl),
    jArrOf_dump validateQueryRefinement dumpQueryRefinement
      validateQueryRefinement_dump]
  rfl

end Msa.Memory

namespace Msa.Memory

open Msa

/-- ActionRecord dump/validate round-trip. -/
theorem validateActionRecord_dump (a : ActionRecord) :
    validateActionRecord (dumpActionRecord a) = Except.ok a := rfl

/-- ToolCall dump/validate round-trip. -/
theorem validateToolCall_dump (t : ToolCall) :
    validateToolCall (dumpToolCall t) = Except.ok t := rfl

/-- ToolResponse dump/validate round-trip. -/
theorem validateToolResponse_dump (t : ToolResponse) :
    validateToolResponse (dumpToolResponse t) = Except.ok t := rfl

/-- ExecutionHistory dump/validate round-trip. -/
theorem validateExecutionHistory_dump (e : ExecutionHistory) :
    validateExecutionHistory (dumpExecutionHistory e) = Except.ok e := by
  simp only [validateExecutionHistory, dumpExecutionHistory, jAnyObj,
    jField, dget, String.reduceEq, reduceIte, exBind_ok,
    jArrOf_dump validateActionRecord dumpActionRecord
      validateActionRecord_dump,
    jObjOf_dump jNum JValue.num (fun b => rfl),
    jArrOf_dump validateToolCall dumpToolCall validateToolCall_dump,
    jArrOf_dump validateToolResponse dumpToolResponse
      validateToolResponse_dump]
  rfl

/-- ReasoningState dump/validate round-trip. -/
theorem validateReasoningState_dump (r : ReasoningState) :
    validateReasoningState (dumpReasoningState r) = Except.ok r := by
  simp only [validateReasoningState, dumpReasoningState, jAnyObj, jField,
    dget, String.reduceEq, reduceIte, exBind_ok, jStr, jBool,
    jArrOf_dump jStr JValue.str (fun b => rfl)]
  rfl

/-- The relationships dict round-trips when every entry is a model
Relationship instance. -/
theorem relationships_roundtrip (l : List (String × RelEntry))
    (h : ∀ p ∈ l, ∃ r, p.2 = RelEntry.model r) :
    jObjOf validateRelationship
        (JValue.obj (l.map (fun p => (p.1, dumpRelEntry p.2)))) =
      Except.ok l := by
  simp only [jObjOf]
  induction l with
  | nil => rfl
  | cons b t ih =>
    obtain ⟨bk, bv⟩ := b
    obtain ⟨r, hr⟩ := h (bk, bv) (List.mem_cons_self _ _)
    simp only at hr
    subst hr
    have ih2 := ih (fun p hp => h p (List.mem_cons_of_mem _ hp))
    simp only [List.map, exListMapM]
    rw [ih2]
    rfl

/-- InformationStore dump/validate round-trip for model-only
relationship entries. -/
theorem validateInformationStore_dump (s : InformationStore)
    (h : ∀ p ∈ s.relationships, ∃ r, p.2 = RelEntry.model r) :
    validateInformationStore (dumpInformationStore s) = Except.ok s := by
  simp only [validateInformationStore, dumpInformationStore, jAnyObj,
    jField, dget, String.reduceEq, reduceIte, exBind_ok,
    jObjOf_dump validateFact dumpFact validateFact_dump,
    relationships_roundtrip s.relationships h,
    jObjOf_dump validateSourceMetadata dumpSourceMetadata
      validateSourceMetadata_dump,
    jObjOf_dump jNum JValue.num (fun b => rfl)]
  rfl

/-- WorkingMemory dump/validate round-trip for model-only relationship
entries. -/
theorem validateWorkingMemory_dump (m : WorkingMemory)
    (h : ∀ p ∈ m.information_store.relationships,
      ∃ r, p.2 = RelEntry.model r) :
    validateWorkingMemory (dumpWorkingMemory m) = Except.ok m := by
  simp only [validateWorkingMemory, dumpWorkingMemory, jAnyObj, jField,
    dget, String.reduceEq, reduceIte, exBind_ok, jNum,
    validateQueryState_dump, validateExecutionHistory_dump,
    validateInformationStore_dump m.information_store h,
    validateReasoningState_dump]
  rfl

end Msa.Memory

namespace Msa.Memory

open Msa

/-- C6 counterexample: for the snapshot of a store in which
infer_relationships has populated relationships, deserialize raises a
validation error (the stored raw dicts lack the required fields of the
Relationship model), so serialize-after-deserialize cannot reproduce the
snapshot; the relationships dict is indeed populated. -/
theorem infer_relationships_snapshot_fails_roundtrip :
    c6Mgr.memory.information_store.relationships.length = 1 ∧
    exceptIsOk (deserialize (serialize c6Mgr)) = false ∧
    exceptIsOk (serializeAfterDeserialize (serialize c6Mgr)) = false := by
  refine ⟨by decide, by decide, by decide⟩

/-- C6 amended: for every store state whose relationships entries are
genuine Relationship model instances — in particular any state reachable
without infer_relationships — deserialize of the serialized snapshot
returns exactly the original memory, and serialize after deserialize
reproduces the snapshot byte for byte. -/
theorem serialize_roundtrip_for_model_relationships
    (mm : WorkingMemoryManager)
    (h : ∀ p ∈ mm.memory.information_store.relationships,
      ∃ r, p.2 = RelEntry.model r) :
    deserialize (serialize mm) = Except.ok mm.memory ∧
    serializeAfterDeserialize (serialize mm) =
      Except.ok (serialize mm) := by
  have hd : deserialize (serialize mm) = Except.ok mm.memory := by
    rw [serialize, deserialize]
    exact validateWorkingMemory_dump mm.memory h
  refine ⟨hd, ?_⟩
  rw [serializeAfterDeserialize, deserialize] at *
  rw [hd]
  rfl

/-- Witness for the amended C6 at the two-fact store without inferred
relationships. -/
theorem serialize_roundtrip_witness :
    (∀ p ∈ c6Base.memory.information_store.relationships,
      ∃ r, p.2 = RelEntry.model r) ∧
    deserialize (serialize c6Base) = Except.ok c6Base.memory ∧
    serializeAfterDeserialize (serialize c6Base) =
      Except.ok (serialize c6Base) := by
  have hempty : c6Base.memory.information_store.relationships = [] := rfl
  have h : ∀ p ∈ c6Base.memory.information_store.relationships,
      ∃ r, p.2 = RelEntry.model r := by
    intro p hp
    rw [hempty] at hp
    cases hp
  have hthm := serialize_roundtrip_for_model_relationships c6Base h
  exact ⟨h, hthm.1, hthm.2⟩

end Msa.Memory

namespace Msa.Controller

open Msa Msa.Memory Msa.Orchestration

/-- When every thinking call returns normally, every run of the
controller loop returns a plain-text answer (all other failures are
recovered locally). -/
theorem processQueryLoop_isOk (tools : List String) (query : String)
    (oracle : Nat → IterOracle)
    (h : ∀ i, ((oracle i).thinking).isOk = true) :
    ∀ (n i : Nat) (mm : WorkingMemoryManager) (fails : Nat),
      (processQueryLoop tools query oracle n i mm fails).isOk = true := by
  intro n
  induction n with
  | zero => intro i mm fails; rfl
  | succ n ih =>
    intro i mm fails
    have hth := h i
    cases hthv : (oracle i).thinking with
    | exc e => rw [hthv] at hth; simp [PyResult.isOk] at hth
    | ok r =>
      rw [processQueryLoop]
      dsimp only
      rw [hthv]
      dsimp only [process_thoughts]
      split
      · rfl
      · split
        · split
          · split
            · rfl
            · exact ih (i + 1) _ _
          · exact ih (i + 1) _ _
        · split
          · split
            · rfl
            · split
              · rfl
              · rfl
          · rfl

/-- C1 counterexample: a thinking-client call that raises propagates out
of process_query (the thinking call is not guarded), so process_query can
raise. -/
theorem process_query_raises_when_thinking_raises :
    process_query 10 defaultTools "q" 0 c1BoomOracle =
      PyResult.exc "boom" := by
  rfl

/-- C1 amended: process_query returns a plain-text answer for every
query, iteration budget and behaviour of the consumed LLM clients and
tools, provided each thinking-client call returns normally; failures of
the action-selection call, the completion call, the tools and the
synthesis call are all recovered locally inside the loop, but a raising
thinking-client call propagates. -/
theorem process_query_returns_text_when_thinking_returns
    (max_iterations : Nat) (tools : List String) (query : String)
    (t0 : Rat) (oracle : Nat → IterOracle)
    (h : ∀ i, ((oracle i).thinking).isOk = true) :
    (process_query max_iterations tools query t0 oracle).isOk = true := by
  rw [process_query]
  exact processQueryLoop_isOk tools query oracle h max_iterations 0 _ 0

/-- Witness for the amended C1: a run in which everything behaves and
the loop returns text. -/
theorem process_query_returns_text_witness :
    (∀ i, ((c1CalmOracle i).thinking).isOk = true) ∧
    (process_query 10 defaultTools "q" 0 c1CalmOracle).isOk = true :=
  ⟨fun _ => rfl,
    process_query_returns_text_when_thinking_returns 10 defaultTools "q"
      0 c1CalmOracle (fun _ => rfl)⟩

end Msa.Controller

namespace Msa.Controller

open Msa Msa.Memory Msa.Orchestration

/-- C7: in any controller iteration in which the completion check says
not complete and the selected action has action_type stop, the loop
returns a plain-text answer that is the fixed no-information message
("Unable to determine next action.") when the store holds no facts, the
fixed tool-failures message when the content of every stored fact contains
"Error executing tool", and otherwise the answer synthesized from the
current evidence. -/
theorem stop_action_three_way_answer (tools : List String)
    (query : String) (oracle : Nat → IterOracle) (i n : Nat)
    (mm : WorkingMemoryManager) (fails : Nat) (r : ThinkResponse)
    (hth : (oracle i).thinking = PyResult.ok r)
    (hact : (process_action_selection (oracle i).action
      tools).action_type = "stop")
    (hcomp : (process_completion_decision
      (oracle i).completion).is_complete = false) :
    processQueryLoop tools query oracle (n + 1) i mm fails =
      PyResult.ok
        (if mm.memory.information_store.facts.isEmpty then
          "Unable to determine next action."
        else if mm.memory.information_store.facts.all
            (fun p => strIn "Error executing tool" p.2.content) then
          "Unable to complete task due to tool failures."
        else
          synthesize_answer mm.memory query
            (some (oracle i).synthesis)) := by
  rw [processQueryLoop]
  dsimp only
  rw [hth]
  dsimp only [process_thoughts]
  simp only [hcomp, hact, String.reduceEq, reduceIte,
    Bool.false_eq_true, if_false, if_true]
  split
  · rfl
  · split
    · rfl
    · rfl

/-- Witness for C7: a stop iteration over the two-fact store, landing in
the synthesize branch. -/
theorem stop_action_three_way_witness :
    (c1CalmOracle 0).thinking =
      PyResult.ok (ThinkResponse.contentAttr "thinking") ∧
    (process_action_selection (c1CalmOracle 0).action
      defaultTools).action_type = "stop" ∧
    (process_completion_decision
      (c1CalmOracle 0).completion).is_complete = false ∧
    processQueryLoop defaultTools "q" c1CalmOracle 1 0 c6Base 0 =
      PyResult.ok
        (if c6Base.memory.information_store.facts.isEmpty then
          "Unable to determine next action."
        else if c6Base.memory.information_store.facts.all
            (fun p => strIn "Error executing tool" p.2.content) then
          "Unable to complete task due to tool failures."
        else
          synthesize_answer c6Base.memory "q"
            (some (c1CalmOracle 0).synthesis)) :=
  ⟨rfl, rfl, rfl,
    stop_action_three_way_answer defaultTools "q" c1CalmOracle 0 0 c6Base
      0 (ThinkResponse.contentAttr "thinking") rfl rfl rfl⟩

end Msa.Controller
